import Mathlib

/-!
Verification of the capability-to-configuration reconciliation engine of
`src/hotspot/cpu/aarch64/vm_version_aarch64.cpp` (JDK 17 updates).

The C++ code is embedded shallowly: the global flag store becomes an explicit
state record `St`, each comment-delimited section of `VM_Version::initialize`
becomes a pure state transformer (or an `Except`-valued one where the section
can call `vm_exit_during_initialization` / `guarantee`), and the whole
function is their composition `vmInit`.  A flag (HotSpot "JVMFlag") is a pair
of its current value and its origin bit: `FLAG_IS_DEFAULT(X)` reads the origin
bit, and both plain assignment `X = v` and `FLAG_SET_DEFAULT(X, v)` (which in
HotSpot expands to a plain assignment) write the value and leave the origin
bit unchanged; the origin bit is fixed by command-line parsing before
`VM_Version::initialize` runs.  External probes (cache geometry, zva, the two
SVE vector-length system calls, virtualization info files) are carried in the
state as immutable input fields, per the spec's external-interface contract.

Sections are written as a single record update whose fields hold the
conditional results of the section's statements, sequenced with `let`
bindings in source order, so that the embedding stays line-for-line
traceable while untouched fields are definitionally preserved.

The HotSpot expression `x & 7` on a (signed) flag value is embedded as
`x % 8` and `x &= ~7` as `x - x % 8`: `%` on `Int` is Euclidean mod, which
agrees with two's-complement masking of the low three bits for all inputs.

Not modelled (no claim touches them): the `_features_string` formatting of
lines 243-250 and the `UNSUPPORTED_OPTION(CriticalJNINatives)` check of line
517, neither of which changes any modelled knob.
-/

/-- A HotSpot JVMFlag as seen by this file: current value plus the
`FLAG_IS_DEFAULT` origin bit. -/
structure JVMFlag (α : Type) where
  value : α
  isDefault : Bool
deriving DecidableEq, Repr

/-- Assignment to a flag (both `X = v` and `FLAG_SET_DEFAULT(X, v)`):
updates the value, keeps the origin bit. -/
def setV {α : Type} (f : JVMFlag α) (v : α) : JVMFlag α := ⟨v, f.isDefault⟩

/-- Spin-wait instruction kinds, from class `SpinWait` (companion header). -/
inductive SpinWaitInst where
  | NONE
  | NOP
  | ISB
  | YIELD
deriving DecidableEq, Repr

/-- A spin-wait descriptor: instruction kind and repeat count.  The default
constructor `SpinWait{}` is `{NONE, 0}`. -/
structure SpinWait where
  inst : SpinWaitInst := .NONE
  count : Int := 0
deriving DecidableEq, Repr

/-- Virtualization verdicts used by the aarch64 probe (from
`Abstract_VM_Version`). -/
inductive VirtualizationType where
  | NoDetectedVirtualization
  | KVM
  | VMWare
  | XenPVHVM
deriving DecidableEq, Repr

/-- Modelled from the spec: CPU feature bits of `VM_Version::Feature_Flag`
(companion header, not part of the excerpt).  Only distinctness and
disjointness of the bit positions matter to the reconciliation logic. -/
def CPU_FP : Nat := 1 <<< 0
def CPU_ASIMD : Nat := 1 <<< 1
def CPU_EVTSTRM : Nat := 1 <<< 2
def CPU_AES : Nat := 1 <<< 3
def CPU_PMULL : Nat := 1 <<< 4
def CPU_SHA1 : Nat := 1 <<< 5
def CPU_SHA2 : Nat := 1 <<< 6
def CPU_CRC32 : Nat := 1 <<< 7
def CPU_LSE : Nat := 1 <<< 8
def CPU_DCPOP : Nat := 1 <<< 16
def CPU_SHA3 : Nat := 1 <<< 17
def CPU_SHA512 : Nat := 1 <<< 21
def CPU_SVE : Nat := 1 <<< 22
def CPU_SVE2 : Nat := 1 <<< 28
def CPU_STXR_PREFETCH : Nat := 1 <<< 29
def CPU_A53MAC : Nat := 1 <<< 30

/-- Modelled from the spec: CPU implementer (vendor) codes from the companion
header; distinct integers, values as in the MIDR_EL1 encoding. -/
def CPU_ARM : Int := 0x41
def CPU_BROADCOM : Int := 0x42
def CPU_CAVIUM : Int := 0x43
def CPU_HISILICON : Int := 0x48
def CPU_AMCC : Int := 0x50
def CPU_AMPERE : Int := 0xC0

/-- Modelled from the spec: Ampere model identifiers from the companion
header. -/
def CPU_MODEL_EMAG : Int := 0x0
def CPU_MODEL_AMPERE_1 : Int := 0xac3
def CPU_MODEL_AMPERE_1A : Int := 0xac4
def CPU_MODEL_AMPERE_1B : Int := 0xac5

/-- Modelled from the spec: `FloatRegisterImpl::sve_vl_min`, the architecture
minimum SVE vector length in bytes (16, per the spec's "architecture minimum
of 16 bytes"). -/
def sve_vl_min : Int := 16

/-- `is_power_of_2` from `utilities/powerOfTwo.hpp`:
`x > 0 && (x & (x - 1)) == 0`. -/
def is_power_of_2 (n : Int) : Bool := 0 < n && (n.toNat &&& (n.toNat - 1) == 0)

/-- The modelled slice of the process state: probed CPU identity, feature
bitset, the flag store, external probe results, and the warning /
spin-wait / virtualization outputs.  Fields named after the C++ globals. -/
structure St where
  -- CPU identity (filled by `get_os_cpu_info`, read-only facts)
  cpu : Int
  model : Int
  model2 : Int
  variant : Int
  revision : Int
  -- feature bitset; mutated by the Cortex-A53 / A57 vendor rules
  features : Nat
  -- external probe facts
  dcache_line_size : Int
  os_supports_map_sync : Bool
  zva_enabled : Bool
  zva_length : Int
  get_current_sve_vector_length : Int
  set_and_get_current_sve_vector_length : Int → Int
  pname_file : Option (List String)
  tname_file : Option (List String)
  -- outputs besides the flags
  data_cache_line_flush_size : Int
  initial_sve_vector_length : Int
  spin_wait : SpinWait
  detected_virtualization : VirtualizationType
  warnings : List String
  -- the flag store
  AllocatePrefetchDistance : JVMFlag Int
  AllocatePrefetchStepSize : JVMFlag Int
  PrefetchScanIntervalInBytes : JVMFlag Int
  PrefetchCopyIntervalInBytes : JVMFlag Int
  SoftwarePrefetchHintDistance : JVMFlag Int
  ContendedPaddingWidth : JVMFlag Int
  AvoidUnalignedAccesses : JVMFlag Bool
  UseSIMDForMemoryOps : JVMFlag Bool
  UseSIMDForArrayEquals : JVMFlag Bool
  UseSimpleArrayEquals : JVMFlag Bool
  UseSignumIntrinsic : JVMFlag Bool
  OnSpinWaitInst : JVMFlag String
  OnSpinWaitInstCount : JVMFlag Int
  UseCRC32 : JVMFlag Bool
  UseAdler32Intrinsics : JVMFlag Bool
  UseVectorizedMismatchIntrinsic : JVMFlag Bool
  UseLSE : JVMFlag Bool
  UseAES : JVMFlag Bool
  UseAESIntrinsics : JVMFlag Bool
  UseAESCTRIntrinsics : JVMFlag Bool
  UseCRC32Intrinsics : JVMFlag Bool
  UseCRC32CIntrinsics : JVMFlag Bool
  UseFMA : JVMFlag Bool
  UseMD5Intrinsics : JVMFlag Bool
  UseSHA : JVMFlag Bool
  UseSHA1Intrinsics : JVMFlag Bool
  UseSHA256Intrinsics : JVMFlag Bool
  UseSHA3Intrinsics : JVMFlag Bool
  UseSHA512Intrinsics : JVMFlag Bool
  UseGHASHIntrinsics : JVMFlag Bool
  UseBASE64Intrinsics : JVMFlag Bool
  UseBlockZeroing : JVMFlag Bool
  BlockZeroingLowLimit : JVMFlag Int
  UseSVE : JVMFlag Int
  UseUnalignedAccesses : JVMFlag Bool
  UsePopCountInstruction : JVMFlag Bool
  UseMultiplyToLenIntrinsic : JVMFlag Bool
  UseSquareToLenIntrinsic : JVMFlag Bool
  UseMulAddIntrinsic : JVMFlag Bool
  UseMontgomeryMultiplyIntrinsic : JVMFlag Bool
  UseMontgomerySquareIntrinsic : JVMFlag Bool
  MaxVectorSize : JVMFlag Int
  OptoScheduling : JVMFlag Bool
  AlignVector : JVMFlag Bool

/-- A fatal initialization exit (`vm_exit_during_initialization` or a failed
`guarantee`): the message and the state at the moment of the exit. -/
structure Fatal where
  msg : String
  st : St

/-- `VM_Version::model_is` from the companion header:
`_model == cpu_model || _model2 == cpu_model`. -/
def model_is (st : St) (cpu_model : Int) : Bool :=
  st.model == cpu_model || st.model2 == cpu_model

/-- Lines 79-121: prefetch-distance defaults from the data cache line size,
then the multiple-of-8 realignment advisories, then `ContendedPaddingWidth`. -/
def prefetchPhase (st : St) : St :=
  let dcache_line := st.dcache_line_size
  -- lines 83-93
  let apd0 := if st.AllocatePrefetchDistance.isDefault then
      setV st.AllocatePrefetchDistance (min 512 (3 * dcache_line)) else st.AllocatePrefetchDistance
  let apss0 := if st.AllocatePrefetchStepSize.isDefault then
      setV st.AllocatePrefetchStepSize dcache_line else st.AllocatePrefetchStepSize
  let psi := if st.PrefetchScanIntervalInBytes.isDefault then
      setV st.PrefetchScanIntervalInBytes (3 * dcache_line) else st.PrefetchScanIntervalInBytes
  let pci0 := if st.PrefetchCopyIntervalInBytes.isDefault then
      setV st.PrefetchCopyIntervalInBytes (3 * dcache_line) else st.PrefetchCopyIntervalInBytes
  let sphd0 := if st.SoftwarePrefetchHintDistance.isDefault then
      setV st.SoftwarePrefetchHintDistance (3 * dcache_line) else st.SoftwarePrefetchHintDistance
  -- lines 95-101
  let pciBad := pci0.value ≠ -1 ∧ (pci0.value % 8 ≠ 0 ∨ 32768 ≤ pci0.value)
  let pci1 := if pciBad then
      setV pci0 (if 32768 ≤ pci0.value - pci0.value % 8 then 32760 else pci0.value - pci0.value % 8)
    else pci0
  -- lines 103-106
  let apdBad := apd0.value ≠ -1 ∧ apd0.value % 8 ≠ 0
  let apd1 := if apdBad then setV apd0 (apd0.value - apd0.value % 8) else apd0
  -- lines 108-111
  let apssBad := apss0.value % 8 ≠ 0
  let apss1 := if apssBad then setV apss0 (apss0.value - apss0.value % 8) else apss0
  -- lines 113-117
  let sphdBad := sphd0.value ≠ -1 ∧ sphd0.value % 8 ≠ 0
  let sphd1 := if sphdBad then setV sphd0 (sphd0.value - sphd0.value % 8) else sphd0
  { st with
    AllocatePrefetchDistance := apd1
    AllocatePrefetchStepSize := apss1
    PrefetchScanIntervalInBytes := psi
    PrefetchCopyIntervalInBytes := pci1
    SoftwarePrefetchHintDistance := sphd1
    -- lines 119-121
    ContendedPaddingWidth :=
      if st.ContendedPaddingWidth.isDefault ∧ dcache_line > st.ContendedPaddingWidth.value then
        setV st.ContendedPaddingWidth dcache_line else st.ContendedPaddingWidth
    warnings := st.warnings
      ++ (if pciBad then ["PrefetchCopyIntervalInBytes must be -1, or a multiple of 8 and < 32768"] else [])
      ++ (if apdBad then ["AllocatePrefetchDistance must be multiple of 8"] else [])
      ++ (if apssBad then ["AllocatePrefetchStepSize must be multiple of 8"] else [])
      ++ (if sphdBad then ["SoftwarePrefetchHintDistance must be -1, or a multiple of 8"] else []) }

/-- Lines 123-130: publish the data cache line flush size when `dcpop` is
available and the OS supports map-sync. -/
def dcpopPhase (st : St) : St :=
  { st with data_cache_line_flush_size :=
      if st.os_supports_map_sync ∧ st.features &&& CPU_DCPOP ≠ 0 then
        st.dcache_line_size else st.data_cache_line_flush_size }

/-- Lines 134-145: Ampere eMAG vendor rule. -/
def emagQuirk (st : St) : St :=
  let cond := st.cpu = CPU_AMCC ∧ st.model = CPU_MODEL_EMAG ∧ st.variant = 0x3
  { st with
    AvoidUnalignedAccesses :=
      if cond ∧ st.AvoidUnalignedAccesses.isDefault then
        setV st.AvoidUnalignedAccesses true else st.AvoidUnalignedAccesses
    UseSIMDForMemoryOps :=
      if cond ∧ st.UseSIMDForMemoryOps.isDefault then
        setV st.UseSIMDForMemoryOps true else st.UseSIMDForMemoryOps
    UseSIMDForArrayEquals :=
      if cond ∧ st.UseSIMDForArrayEquals.isDefault then
        setV st.UseSIMDForArrayEquals (!(st.revision == 1 || st.revision == 2))
      else st.UseSIMDForArrayEquals }

/-- Lines 147-163: Ampere-1 family vendor rule. -/
def ampereQuirk (st : St) : St :=
  let cond := st.cpu = CPU_AMPERE ∧
    (st.model = CPU_MODEL_AMPERE_1 ∨ st.model = CPU_MODEL_AMPERE_1A ∨ st.model = CPU_MODEL_AMPERE_1B)
  { st with
    UseSIMDForMemoryOps :=
      if cond ∧ st.UseSIMDForMemoryOps.isDefault then
        setV st.UseSIMDForMemoryOps true else st.UseSIMDForMemoryOps
    OnSpinWaitInst :=
      if cond ∧ st.OnSpinWaitInst.isDefault then
        setV st.OnSpinWaitInst "isb" else st.OnSpinWaitInst
    OnSpinWaitInstCount :=
      if cond ∧ st.OnSpinWaitInstCount.isDefault then
        setV st.OnSpinWaitInstCount 2 else st.OnSpinWaitInstCount
    UseSignumIntrinsic :=
      if cond ∧ st.UseSignumIntrinsic.isDefault then
        setV st.UseSignumIntrinsic true else st.UseSignumIntrinsic }

/-- Lines 165-177: ThunderX vendor rule.  The `guarantee(_variant != 0, ...)`
of line 167 fires before any of the rule's overrides. -/
def thunderXQuirk (st : St) : Except Fatal St :=
  let cond := st.cpu = CPU_CAVIUM ∧ st.model = 0xA1
  if cond ∧ st.variant = 0 then
    .error ⟨"Pre-release hardware no longer supported.", st⟩
  else
    .ok { st with
      AvoidUnalignedAccesses :=
        if cond ∧ st.AvoidUnalignedAccesses.isDefault then
          setV st.AvoidUnalignedAccesses true else st.AvoidUnalignedAccesses
      UseSIMDForMemoryOps :=
        if cond ∧ st.UseSIMDForMemoryOps.isDefault then
          setV st.UseSIMDForMemoryOps (decide (0 < st.variant)) else st.UseSIMDForMemoryOps
      UseSIMDForArrayEquals :=
        if cond ∧ st.UseSIMDForArrayEquals.isDefault then
          setV st.UseSIMDForArrayEquals false else st.UseSIMDForArrayEquals }

/-- Lines 179-188: ThunderX2 vendor rule. -/
def thunderX2Quirk (st : St) : St :=
  let cond := (st.cpu = CPU_CAVIUM ∧ st.model = 0xAF) ∨ (st.cpu = CPU_BROADCOM ∧ st.model = 0x516)
  { st with
    AvoidUnalignedAccesses :=
      if cond ∧ st.AvoidUnalignedAccesses.isDefault then
        setV st.AvoidUnalignedAccesses true else st.AvoidUnalignedAccesses
    UseSIMDForMemoryOps :=
      if cond ∧ st.UseSIMDForMemoryOps.isDefault then
        setV st.UseSIMDForMemoryOps true else st.UseSIMDForMemoryOps }

/-- Lines 190-198: HiSilicon TSV110 vendor rule. -/
def hisiliconQuirk (st : St) : St :=
  let cond := st.cpu = CPU_HISILICON ∧ st.model = 0xd01
  { st with
    AvoidUnalignedAccesses :=
      if cond ∧ st.AvoidUnalignedAccesses.isDefault then
        setV st.AvoidUnalignedAccesses true else st.AvoidUnalignedAccesses
    UseSIMDForMemoryOps :=
      if cond ∧ st.UseSIMDForMemoryOps.isDefault then
        setV st.UseSIMDForMemoryOps true else st.UseSIMDForMemoryOps }

/-- Lines 200-206: Cortex A53 vendor rule; adds the `CPU_A53MAC` erratum
work-around bit to the feature set. -/
def a53Quirk (st : St) : St :=
  let cond := st.cpu = CPU_ARM ∧ (st.model = 0xd03 ∨ st.model2 = 0xd03)
  { st with
    features := if cond then st.features ||| CPU_A53MAC else st.features
    UseSIMDForArrayEquals :=
      if cond ∧ st.UseSIMDForArrayEquals.isDefault then
        setV st.UseSIMDForArrayEquals false else st.UseSIMDForArrayEquals }

/-- Lines 208-217: Cortex A73 vendor rule. -/
def a73Quirk (st : St) : St :=
  let cond := st.cpu = CPU_ARM ∧ (st.model = 0xd09 ∨ st.model2 = 0xd09)
  { st with
    SoftwarePrefetchHintDistance :=
      if cond ∧ st.SoftwarePrefetchHintDistance.isDefault then
        setV st.SoftwarePrefetchHintDistance (-1) else st.SoftwarePrefetchHintDistance
    UseSimpleArrayEquals :=
      if cond ∧ st.UseSimpleArrayEquals.isDefault then
        setV st.UseSimpleArrayEquals true else st.UseSimpleArrayEquals }

/-- Lines 219-233: Neoverse N1/N2/V1/V2 vendor rule. -/
def neoverseQuirk (st : St) : St :=
  let cond := st.cpu = CPU_ARM ∧
    (model_is st 0xd0c || model_is st 0xd49 || model_is st 0xd40 || model_is st 0xd4f) = true
  { st with
    UseSIMDForMemoryOps :=
      if cond ∧ st.UseSIMDForMemoryOps.isDefault then
        setV st.UseSIMDForMemoryOps true else st.UseSIMDForMemoryOps
    OnSpinWaitInst :=
      if cond ∧ st.OnSpinWaitInst.isDefault then
        setV st.OnSpinWaitInst "isb" else st.OnSpinWaitInst
    OnSpinWaitInstCount :=
      if cond ∧ st.OnSpinWaitInstCount.isDefault then
        setV st.OnSpinWaitInstCount 1 else st.OnSpinWaitInstCount }

/-- Lines 235-239: generic Arm implementer rule for the signum intrinsic. -/
def armSignumQuirk (st : St) : St :=
  let cond := st.cpu = CPU_ARM
  { st with
    UseSignumIntrinsic :=
      if cond ∧ st.UseSignumIntrinsic.isDefault then
        setV st.UseSignumIntrinsic true else st.UseSignumIntrinsic }

/-- Line 241: Cortex A57 rule; adds the `CPU_STXR_PREFETCH` bit. -/
def stxrQuirk (st : St) : St :=
  let cond := st.cpu = CPU_ARM ∧ (st.model = 0xd07 ∨ st.model2 = 0xd07)
  { st with features := if cond then st.features ||| CPU_STXR_PREFETCH else st.features }

/-- Lines 252-268: CRC32 master knob, Adler32, and the unavailable
vectorized-mismatch intrinsic. -/
def crcPhase (st : St) : St :=
  let uc0 := if st.UseCRC32.isDefault then
      setV st.UseCRC32 (st.features &&& CPU_CRC32 != 0) else st.UseCRC32
  let ucBad := uc0.value = true ∧ st.features &&& CPU_CRC32 = 0
  { st with
    UseCRC32 := if ucBad then setV uc0 false else uc0
    UseAdler32Intrinsics :=
      if st.UseAdler32Intrinsics.isDefault then
        setV st.UseAdler32Intrinsics true else st.UseAdler32Intrinsics
    UseVectorizedMismatchIntrinsic :=
      if st.UseVectorizedMismatchIntrinsic.value then
        setV st.UseVectorizedMismatchIntrinsic false else st.UseVectorizedMismatchIntrinsic
    warnings := st.warnings
      ++ (if ucBad then ["UseCRC32 specified, but not supported on this CPU"] else [])
      ++ (if st.UseVectorizedMismatchIntrinsic.value then
            ["UseVectorizedMismatchIntrinsic specified, but not available on this CPU."] else []) }

/-- Lines 270-278: LSE reconciliation. -/
def lsePhase (st : St) : St :=
  let c := st.features &&& CPU_LSE ≠ 0
  { st with
    UseLSE :=
      if c then (if st.UseLSE.isDefault then setV st.UseLSE true else st.UseLSE)
      else (if st.UseLSE.value then setV st.UseLSE false else st.UseLSE)
    warnings := st.warnings
      ++ (if ¬c ∧ st.UseLSE.value = true then ["UseLSE specified, but not supported on this CPU"] else []) }

/-- Lines 280-304: the AES dependency family.  In the feature-present branch
`UseAES` and `UseAESIntrinsics` are recomputed in sequence (lines 281-283),
then the dangling-intrinsics conflict forces `UseAES` on (lines 284-287). -/
def aesPhase (st : St) : St :=
  let p := st.features &&& CPU_AES ≠ 0
  let ua1 := st.UseAES.value || st.UseAES.isDefault
  let uai := st.UseAESIntrinsics.value || (ua1 && st.UseAESIntrinsics.isDefault)
  let conflict := p ∧ uai = true ∧ ua1 = false
  { st with
    UseAES :=
      if p then setV st.UseAES (if conflict then true else ua1)
      else (if st.UseAES.value then setV st.UseAES false else st.UseAES)
    UseAESIntrinsics :=
      if p then setV st.UseAESIntrinsics uai
      else (if st.UseAESIntrinsics.value then setV st.UseAESIntrinsics false else st.UseAESIntrinsics)
    UseAESCTRIntrinsics :=
      if p then
        (if st.UseAESCTRIntrinsics.isDefault then
          setV st.UseAESCTRIntrinsics true else st.UseAESCTRIntrinsics)
      else
        (if st.UseAESCTRIntrinsics.value then
          setV st.UseAESCTRIntrinsics false else st.UseAESCTRIntrinsics)
    warnings := st.warnings
      ++ (if conflict then ["UseAESIntrinsics enabled, but UseAES not, enabling"] else [])
      ++ (if ¬p ∧ st.UseAES.value = true then ["AES instructions are not available on this CPU"] else [])
      ++ (if ¬p ∧ st.UseAESIntrinsics.value = true then ["AES intrinsics are not available on this CPU"] else [])
      ++ (if ¬p ∧ st.UseAESCTRIntrinsics.value = true then ["AES/CTR intrinsics are not available on this CPU"] else []) }

/-- Lines 306-325: CRC32 intrinsics, CRC32C, FMA, MD5. -/
def miscIntrinsicsPhase (st : St) : St :=
  let c := st.features &&& CPU_CRC32 ≠ 0
  { st with
    UseCRC32Intrinsics :=
      if st.UseCRC32Intrinsics.isDefault then
        setV st.UseCRC32Intrinsics true else st.UseCRC32Intrinsics
    UseCRC32CIntrinsics :=
      if c then
        (if st.UseCRC32CIntrinsics.isDefault then
          setV st.UseCRC32CIntrinsics true else st.UseCRC32CIntrinsics)
      else
        (if st.UseCRC32CIntrinsics.value then
          setV st.UseCRC32CIntrinsics false else st.UseCRC32CIntrinsics)
    UseFMA := if st.UseFMA.isDefault then setV st.UseFMA true else st.UseFMA
    UseMD5Intrinsics :=
      if st.UseMD5Intrinsics.isDefault then
        setV st.UseMD5Intrinsics true else st.UseMD5Intrinsics
    warnings := st.warnings
      ++ (if ¬c ∧ st.UseCRC32CIntrinsics.value = true then ["CRC32C is not available on the CPU"] else []) }

/-- Lines 327-372: the SHA dependency family.  The SHA3 and SHA512 intrinsics
are never auto-enabled (the enabling statements are commented out in the
source); the final master reset of lines 374-376 is `shaResetPhase`. -/
def shaPhase (st : St) : St :=
  let shaFeat := st.features &&& (CPU_SHA1 ||| CPU_SHA2 ||| CPU_SHA3 ||| CPU_SHA512) ≠ 0
  let sha0 := if shaFeat then (if st.UseSHA.isDefault then setV st.UseSHA true else st.UseSHA)
    else (if st.UseSHA.value then setV st.UseSHA false else st.UseSHA)
  let c1 := sha0.value = true ∧ st.features &&& CPU_SHA1 ≠ 0
  let s1 := if c1 then
      (if st.UseSHA1Intrinsics.isDefault then setV st.UseSHA1Intrinsics true else st.UseSHA1Intrinsics)
    else (if st.UseSHA1Intrinsics.value then setV st.UseSHA1Intrinsics false else st.UseSHA1Intrinsics)
  let c2 := sha0.value = true ∧ st.features &&& CPU_SHA2 ≠ 0
  let s256 := if c2 then
      (if st.UseSHA256Intrinsics.isDefault then setV st.UseSHA256Intrinsics true else st.UseSHA256Intrinsics)
    else (if st.UseSHA256Intrinsics.value then setV st.UseSHA256Intrinsics false else st.UseSHA256Intrinsics)
  let c3 := sha0.value = true ∧ st.features &&& CPU_SHA3 ≠ 0
  let s3 := if c3 then st.UseSHA3Intrinsics
    else (if st.UseSHA3Intrinsics.value then setV st.UseSHA3Intrinsics false else st.UseSHA3Intrinsics)
  let c4 := sha0.value = true ∧ st.features &&& CPU_SHA512 ≠ 0
  let s512 := if c4 then st.UseSHA512Intrinsics
    else (if st.UseSHA512Intrinsics.value then setV st.UseSHA512Intrinsics false else st.UseSHA512Intrinsics)
  { st with
    UseSHA := sha0
    UseSHA1Intrinsics := s1
    UseSHA256Intrinsics := s256
    UseSHA3Intrinsics := s3
    UseSHA512Intrinsics := s512
    warnings := st.warnings
      ++ (if ¬shaFeat ∧ st.UseSHA.value = true then ["SHA instructions are not available on this CPU"] else [])
      ++ (if ¬c1 ∧ st.UseSHA1Intrinsics.value = true then
            ["Intrinsics for SHA-1 crypto hash functions not available on this CPU."] else [])
      ++ (if ¬c2 ∧ st.UseSHA256Intrinsics.value = true then
            ["Intrinsics for SHA-224 and SHA-256 crypto hash functions not available on this CPU."] else [])
      ++ (if ¬c3 ∧ st.UseSHA3Intrinsics.value = true then
            ["Intrinsics for SHA3-224, SHA3-256, SHA3-384 and SHA3-512 crypto hash functions not available on this CPU."] else [])
      ++ (if ¬c4 ∧ st.UseSHA512Intrinsics.value = true then
            ["Intrinsics for SHA-384 and SHA-512 crypto hash functions not available on this CPU."] else []) }

/-- Lines 374-376: if every SHA sub-intrinsic ended up false, force the
`UseSHA` master back to false. -/
def shaResetPhase (st : St) : St :=
  { st with
    UseSHA :=
      if (st.UseSHA1Intrinsics.value || st.UseSHA256Intrinsics.value ||
          st.UseSHA3Intrinsics.value || st.UseSHA512Intrinsics.value) = false then
        setV st.UseSHA false
      else st.UseSHA }

/-- Lines 378-389: GHASH (PMULL-gated) and Base64. -/
def ghashBase64Phase (st : St) : St :=
  let c := st.features &&& CPU_PMULL ≠ 0
  { st with
    UseGHASHIntrinsics :=
      if c then
        (if st.UseGHASHIntrinsics.isDefault then
          setV st.UseGHASHIntrinsics true else st.UseGHASHIntrinsics)
      else
        (if st.UseGHASHIntrinsics.value then
          setV st.UseGHASHIntrinsics false else st.UseGHASHIntrinsics)
    UseBASE64Intrinsics :=
      if st.UseBASE64Intrinsics.isDefault then
        setV st.UseBASE64Intrinsics true else st.UseBASE64Intrinsics
    warnings := st.warnings
      ++ (if ¬c ∧ st.UseGHASHIntrinsics.value = true then ["GHASH intrinsics are not available on this CPU"] else []) }

/-- Lines 391-401: DC ZVA block zeroing. -/
def zvaPhase (st : St) : St :=
  { st with
    UseBlockZeroing :=
      if st.zva_enabled then
        (if st.UseBlockZeroing.isDefault then setV st.UseBlockZeroing true else st.UseBlockZeroing)
      else
        (if st.UseBlockZeroing.value then setV st.UseBlockZeroing false else st.UseBlockZeroing)
    BlockZeroingLowLimit :=
      if st.zva_enabled ∧ st.BlockZeroingLowLimit.isDefault then
        setV st.BlockZeroingLowLimit (4 * st.zva_length) else st.BlockZeroingLowLimit
    warnings := st.warnings
      ++ (if ¬st.zva_enabled ∧ st.UseBlockZeroing.value = true then ["DC ZVA is not available on this CPU"] else []) }

/-- Lines 403-410: SVE tier reconciliation against the feature bits. -/
def sveTierPhase (st : St) : St :=
  let sveFeat := st.features &&& CPU_SVE ≠ 0
  { st with
    UseSVE :=
      if sveFeat then
        (if st.UseSVE.isDefault then
          setV st.UseSVE (if st.features &&& CPU_SVE2 ≠ 0 then 2 else 1) else st.UseSVE)
      else (if 0 < st.UseSVE.value then setV st.UseSVE 0 else st.UseSVE)
    warnings := st.warnings
      ++ (if ¬sveFeat ∧ 0 < st.UseSVE.value then
            ["UseSVE specified, but not supported on current CPU. Disabling SVE."] else []) }

/-- Lines 412-426: validation of the queried SVE vector length
(`get_current_sve_vector_length`): a negative query or a length that is zero,
not a multiple of `sve_vl_min`, or not a power of two disables SVE with an
advisory; otherwise the length is recorded. -/
def sveLengthPhase (st : St) : St :=
  let vl := st.get_current_sve_vector_length
  let active := 0 < st.UseSVE.value
  let shapeBad := vl = 0 ∨ vl % sve_vl_min ≠ 0 ∨ is_power_of_2 vl = false
  { st with
    UseSVE := if active ∧ (vl < 0 ∨ shapeBad) then setV st.UseSVE 0 else st.UseSVE
    initial_sve_vector_length :=
      if active ∧ ¬vl < 0 ∧ ¬shapeBad then vl else st.initial_sve_vector_length
    warnings := st.warnings
      ++ (if active ∧ vl < 0 then
            ["Unable to get SVE vector length on this system. Disabling SVE. Specify -XX:UseSVE=0 to shun this warning."] else [])
      ++ (if active ∧ ¬vl < 0 ∧ shapeBad then
            ["Detected SVE vector length (" ++ toString vl ++ ") should be a power of two and a multiple of "
              ++ toString sve_vl_min ++ ". Disabling SVE. Specify -XX:UseSVE=0 to shun this warning."] else []) }

/-- Lines 428-440: unaligned accesses and the always-on popcount knob.  An
explicitly disabled `UsePopCountInstruction` is forced back to true with a
warning. -/
def unalignedPopcntPhase (st : St) : St :=
  let up0 := if st.UsePopCountInstruction.isDefault then
      setV st.UsePopCountInstruction true else st.UsePopCountInstruction
  { st with
    UseUnalignedAccesses :=
      if st.UseUnalignedAccesses.isDefault then
        setV st.UseUnalignedAccesses true else st.UseUnalignedAccesses
    UsePopCountInstruction := if up0.value = false then setV up0 true else up0
    warnings := st.warnings
      ++ (if up0.value = false then ["UsePopCountInstruction is always enabled on this CPU"] else []) }

/-- Lines 443-460 (COMPILER2): default-on multiply/square/mul-add/Montgomery
intrinsics. -/
def compiler2APhase (st : St) : St :=
  { st with
    UseMultiplyToLenIntrinsic :=
      if st.UseMultiplyToLenIntrinsic.isDefault then
        setV st.UseMultiplyToLenIntrinsic true else st.UseMultiplyToLenIntrinsic
    UseSquareToLenIntrinsic :=
      if st.UseSquareToLenIntrinsic.isDefault then
        setV st.UseSquareToLenIntrinsic true else st.UseSquareToLenIntrinsic
    UseMulAddIntrinsic :=
      if st.UseMulAddIntrinsic.isDefault then
        setV st.UseMulAddIntrinsic true else st.UseMulAddIntrinsic
    UseMontgomeryMultiplyIntrinsic :=
      if st.UseMontgomeryMultiplyIntrinsic.isDefault then
        setV st.UseMontgomeryMultiplyIntrinsic true else st.UseMontgomeryMultiplyIntrinsic
    UseMontgomerySquareIntrinsic :=
      if st.UseMontgomerySquareIntrinsic.isDefault then
        setV st.UseMontgomerySquareIntrinsic true else st.UseMontgomerySquareIntrinsic }

/-- Lines 462-484 (COMPILER2): `MaxVectorSize` under SVE, including the
write-then-read-back negotiation `set_and_get_current_sve_vector_length`.
The negotiated value is adopted as `_initial_sve_vector_length` (line 470)
before the failure check, and is not re-validated for shape. -/
def sveMaxVectorPhase (st : St) : Except Fatal St :=
  if 0 < st.UseSVE.value then
    if st.MaxVectorSize.isDefault then
      .ok { st with MaxVectorSize := setV st.MaxVectorSize st.initial_sve_vector_length }
    else if st.MaxVectorSize.value < 16 then
      .ok { st with
        UseSVE := setV st.UseSVE 0
        warnings := st.warnings ++ ["SVE does not support vector length less than 16 bytes. Disabling SVE."] }
    else if st.MaxVectorSize.value % 16 = 0 ∧ is_power_of_2 st.MaxVectorSize.value = true then
      let new_vl := st.set_and_get_current_sve_vector_length st.MaxVectorSize.value
      if new_vl < 0 then
        .error ⟨"Current system does not support SVE vector length for MaxVectorSize: " ++ toString st.MaxVectorSize.value,
                { st with initial_sve_vector_length := new_vl }⟩
      else
        .ok { st with
          initial_sve_vector_length := new_vl
          warnings := st.warnings ++
            (if new_vl ≠ st.MaxVectorSize.value then
              ["Current system only supports max SVE vector length " ++ toString new_vl
                ++ ". Set MaxVectorSize to " ++ toString new_vl] else [])
          MaxVectorSize := setV st.MaxVectorSize new_vl }
    else
      .error ⟨"Unsupported MaxVectorSize: " ++ toString st.MaxVectorSize.value, st⟩
  else .ok st

/-- Lines 486-502 (COMPILER2): the NEON `MaxVectorSize` range [8, 16]. -/
def neonPhase (st : St) : Except Fatal St :=
  if st.UseSVE.value = 0 then
    let min_vector_size : Int := 8
    let max_vector_size : Int := 16
    if st.MaxVectorSize.isDefault = false then
      if is_power_of_2 st.MaxVectorSize.value = false then
        .error ⟨"Unsupported MaxVectorSize: " ++ toString st.MaxVectorSize.value, st⟩
      else if st.MaxVectorSize.value < min_vector_size then
        .ok { st with
          warnings := st.warnings ++
            ["MaxVectorSize must be at least " ++ toString min_vector_size ++ " on this platform"]
          MaxVectorSize := setV st.MaxVectorSize min_vector_size }
      else if st.MaxVectorSize.value > max_vector_size then
        .ok { st with
          warnings := st.warnings ++
            ["MaxVectorSize must be at most " ++ toString max_vector_size ++ " on this platform"]
          MaxVectorSize := setV st.MaxVectorSize max_vector_size }
      else .ok st
    else .ok { st with MaxVectorSize := setV st.MaxVectorSize 16 }
  else .ok st

/-- Lines 504-510 (COMPILER2): scheduling and vector alignment defaults. -/
def optoAlignPhase (st : St) : St :=
  { st with
    OptoScheduling :=
      if st.OptoScheduling.isDefault then setV st.OptoScheduling true else st.OptoScheduling
    AlignVector :=
      if st.AlignVector.isDefault then
        setV st.AlignVector st.AvoidUnalignedAccesses.value else st.AlignVector }

/-- Lines 52-68: `get_spin_wait_desc`.  Parses `OnSpinWaitInst` against the
valid set and rejects a positive explicit `OnSpinWaitInstCount` when no
strategy (value "none") is configured. -/
def get_spin_wait_desc (inst : JVMFlag String) (count : JVMFlag Int) : Except String SpinWait :=
  if inst.value = "nop" then .ok ⟨.NOP, count.value⟩
  else if inst.value = "isb" then .ok ⟨.ISB, count.value⟩
  else if inst.value = "yield" then .ok ⟨.YIELD, count.value⟩
  else if inst.value ≠ "none" then
    .error "The options for OnSpinWaitInst are nop, isb, yield, and none"
  else if count.isDefault = false ∧ 0 < count.value then
    .error "OnSpinWaitInstCount cannot be used for OnSpinWaitInst 'none'"
  else .ok {}

/-- Line 513: store the spin-wait descriptor; a parse failure is a fatal
initialization exit. -/
def spinWaitPhase (st : St) : Except Fatal St :=
  match get_spin_wait_desc st.OnSpinWaitInst st.OnSpinWaitInstCount with
  | .error m => .error ⟨m, st⟩
  | .ok d => .ok { st with spin_wait := d }

/-- `strcasestr(line, sub) != 0`: case-insensitive substring test, on the
character lists of the two strings. -/
def strcasestrContains (line sub : String) : Bool :=
  caseInfix (sub.data.map Char.toLower) (line.data.map Char.toLower)
where
  /-- Plain substring search on character lists. -/
  caseInfix (needle : List Char) : List Char → Bool
    | [] => needle == []
    | c :: rest => needle.isPrefixOf (c :: rest) || caseInfix needle rest

/-- The `fgets` loop of `check_info_file` (lines 529-540): per line, the
first signature is tested before the second; the first hit records the
verdict and stops. -/
def check_info_lines (virt1 : String) (vt1 : VirtualizationType)
    (virt2 : Option String) (vt2 : VirtualizationType) (cur : VirtualizationType) :
    List String → Bool × VirtualizationType
  | [] => (false, cur)
  | line :: rest =>
    if strcasestrContains line virt1 then (true, vt1)
    else match virt2 with
      | some v2 =>
        if strcasestrContains line v2 then (true, vt2)
        else check_info_lines virt1 vt1 virt2 vt2 cur rest
      | none => check_info_lines virt1 vt1 virt2 vt2 cur rest

/-- Lines 521-543: `check_info_file`.  A file that cannot be opened yields
`(false, cur)`: not detected, verdict unchanged. -/
def check_info_file (content : Option (List String)) (virt1 : String) (vt1 : VirtualizationType)
    (virt2 : Option String) (vt2 : VirtualizationType) (cur : VirtualizationType) :
    Bool × VirtualizationType :=
  match content with
  | none => (false, cur)
  | some lines => check_info_lines virt1 vt1 virt2 vt2 cur lines

/-- Lines 546-555: `check_virtualizations`.  The product-name file is probed
for KVM/VMWare; only when neither matches is the hypervisor-type file probed
for Xen. -/
def check_virtualizations (pname tname : Option (List String)) : VirtualizationType :=
  let r1 := check_info_file pname "KVM" .KVM (some "VMWare") .VMWare .NoDetectedVirtualization
  if r1.1 then r1.2
  else (check_info_file tname "Xen" .XenPVHVM none .NoDetectedVirtualization r1.2).2

/-- Line 515: record the virtualization verdict. -/
def virtPhase (st : St) : St :=
  { st with detected_virtualization := check_virtualizations st.pname_file st.tname_file }

/-- Lines 71-163: the infallible prefix of `VM_Version::initialize` up to the
ThunderX rule. -/
def pureA (st : St) : St := ampereQuirk (emagQuirk (dcpopPhase (prefetchPhase st)))

/-- Lines 179-460: the infallible middle of `VM_Version::initialize`, from
ThunderX2 to the COMPILER2 default-on intrinsics. -/
def pureB (st : St) : St :=
  compiler2APhase (unalignedPopcntPhase (sveLengthPhase (sveTierPhase (zvaPhase (ghashBase64Phase (shaResetPhase
    (shaPhase (miscIntrinsicsPhase (aesPhase (lsePhase (crcPhase (stxrQuirk (armSignumQuirk
      (neoverseQuirk (a73Quirk (a53Quirk (hisiliconQuirk (thunderX2Quirk st))))))))))))))))))

/-- `VM_Version::initialize` (lines 70-518): the composition of all sections,
with the four fatal exit points threaded through `Except`. -/
def vmInit (st0 : St) : Except Fatal St :=
  match thunderXQuirk (pureA st0) with
  | .error e => .error e
  | .ok st1 =>
    match sveMaxVectorPhase (pureB st1) with
    | .error e => .error e
    | .ok st2 =>
      match neonPhase st2 with
      | .error e => .error e
      | .ok st3 =>
        match spinWaitPhase (optoAlignPhase st3) with
        | .error e => .error e
        | .ok st4 => .ok (virtPhase st4)

/-- Modelled from the spec: the command-line default value of
`OnSpinWaitInstCount` (its definition lives in the flag-store globals, outside
this excerpt); the spec's spin-wait contract is "default absent =
none-equivalent with count 0". -/
def onSpinWaitInstCountDefault : Int := 0

/-- A baseline input state: anonymous CPU identity (no vendor rule fires),
empty feature set, every flag at its command-line default, benign external
probes.  Scenario inputs below are record updates of this state. -/
def baseSt : St where
  cpu := 0
  model := 0
  model2 := 0
  variant := 0
  revision := 0
  features := 0
  dcache_line_size := 64
  os_supports_map_sync := false
  zva_enabled := false
  zva_length := 0
  get_current_sve_vector_length := 16
  set_and_get_current_sve_vector_length := fun n => n
  pname_file := none
  tname_file := none
  data_cache_line_flush_size := 0
  initial_sve_vector_length := 0
  spin_wait := {}
  detected_virtualization := .NoDetectedVirtualization
  warnings := []
  AllocatePrefetchDistance := ⟨-1, true⟩
  AllocatePrefetchStepSize := ⟨64, true⟩
  PrefetchScanIntervalInBytes := ⟨-1, true⟩
  PrefetchCopyIntervalInBytes := ⟨-1, true⟩
  SoftwarePrefetchHintDistance := ⟨-1, true⟩
  ContendedPaddingWidth := ⟨128, true⟩
  AvoidUnalignedAccesses := ⟨false, true⟩
  UseSIMDForMemoryOps := ⟨false, true⟩
  UseSIMDForArrayEquals := ⟨true, true⟩
  UseSimpleArrayEquals := ⟨false, true⟩
  UseSignumIntrinsic := ⟨false, true⟩
  OnSpinWaitInst := ⟨"none", true⟩
  OnSpinWaitInstCount := ⟨onSpinWaitInstCountDefault, true⟩
  UseCRC32 := ⟨false, true⟩
  UseAdler32Intrinsics := ⟨false, true⟩
  UseVectorizedMismatchIntrinsic := ⟨false, true⟩
  UseLSE := ⟨false, true⟩
  UseAES := ⟨false, true⟩
  UseAESIntrinsics := ⟨false, true⟩
  UseAESCTRIntrinsics := ⟨false, true⟩
  UseCRC32Intrinsics := ⟨false, true⟩
  UseCRC32CIntrinsics := ⟨false, true⟩
  UseFMA := ⟨false, true⟩
  UseMD5Intrinsics := ⟨false, true⟩
  UseSHA := ⟨false, true⟩
  UseSHA1Intrinsics := ⟨false, true⟩
  UseSHA256Intrinsics := ⟨false, true⟩
  UseSHA3Intrinsics := ⟨false, true⟩
  UseSHA512Intrinsics := ⟨false, true⟩
  UseGHASHIntrinsics := ⟨false, true⟩
  UseBASE64Intrinsics := ⟨false, true⟩
  UseBlockZeroing := ⟨false, true⟩
  BlockZeroingLowLimit := ⟨0, true⟩
  UseSVE := ⟨0, true⟩
  UseUnalignedAccesses := ⟨false, true⟩
  UsePopCountInstruction := ⟨false, true⟩
  UseMultiplyToLenIntrinsic := ⟨false, true⟩
  UseSquareToLenIntrinsic := ⟨false, true⟩
  UseMulAddIntrinsic := ⟨false, true⟩
  UseMontgomeryMultiplyIntrinsic := ⟨false, true⟩
  UseMontgomerySquareIntrinsic := ⟨false, true⟩
  MaxVectorSize := ⟨0, true⟩
  OptoScheduling := ⟨false, true⟩
  AlignVector := ⟨false, true⟩

/-- The fatal message of an initialization result, if it aborted. -/
def fatalMsg : Except Fatal St → Option String
  | .error e => some e.msg
  | .ok _ => none

/-- The boolean knobs subject to the spec's "user-explicit-false is sticky"
property, after removing the two the code forces on: `UsePopCountInstruction`
(lines 437-440) and `UseAES` (lines 284-287). -/
inductive StickyKnob where
  | AvoidUnalignedAccesses
  | UseSIMDForMemoryOps
  | UseSIMDForArrayEquals
  | UseSimpleArrayEquals
  | UseSignumIntrinsic
  | UseCRC32
  | UseAdler32Intrinsics
  | UseVectorizedMismatchIntrinsic
  | UseLSE
  | UseAESIntrinsics
  | UseAESCTRIntrinsics
  | UseCRC32Intrinsics
  | UseCRC32CIntrinsics
  | UseFMA
  | UseMD5Intrinsics
  | UseSHA
  | UseSHA1Intrinsics
  | UseSHA256Intrinsics
  | UseSHA3Intrinsics
  | UseSHA512Intrinsics
  | UseGHASHIntrinsics
  | UseBASE64Intrinsics
  | UseBlockZeroing
  | UseUnalignedAccesses
  | UseMultiplyToLenIntrinsic
  | UseSquareToLenIntrinsic
  | UseMulAddIntrinsic
  | UseMontgomeryMultiplyIntrinsic
  | UseMontgomerySquareIntrinsic
  | OptoScheduling
  | AlignVector
deriving DecidableEq, Repr

/-- Field accessor for the sticky boolean knobs. -/
def getKnob (st : St) : StickyKnob → JVMFlag Bool
  | .AvoidUnalignedAccesses => st.AvoidUnalignedAccesses
  | .UseSIMDForMemoryOps => st.UseSIMDForMemoryOps
  | .UseSIMDForArrayEquals => st.UseSIMDForArrayEquals
  | .UseSimpleArrayEquals => st.UseSimpleArrayEquals
  | .UseSignumIntrinsic => st.UseSignumIntrinsic
  | .UseCRC32 => st.UseCRC32
  | .UseAdler32Intrinsics => st.UseAdler32Intrinsics
  | .UseVectorizedMismatchIntrinsic => st.UseVectorizedMismatchIntrinsic
  | .UseLSE => st.UseLSE
  | .UseAESIntrinsics => st.UseAESIntrinsics
  | .UseAESCTRIntrinsics => st.UseAESCTRIntrinsics
  | .UseCRC32Intrinsics => st.UseCRC32Intrinsics
  | .UseCRC32CIntrinsics => st.UseCRC32CIntrinsics
  | .UseFMA => st.UseFMA
  | .UseMD5Intrinsics => st.UseMD5Intrinsics
  | .UseSHA => st.UseSHA
  | .UseSHA1Intrinsics => st.UseSHA1Intrinsics
  | .UseSHA256Intrinsics => st.UseSHA256Intrinsics
  | .UseSHA3Intrinsics => st.UseSHA3Intrinsics
  | .UseSHA512Intrinsics => st.UseSHA512Intrinsics
  | .UseGHASHIntrinsics => st.UseGHASHIntrinsics
  | .UseBASE64Intrinsics => st.UseBASE64Intrinsics
  | .UseBlockZeroing => st.UseBlockZeroing
  | .UseUnalignedAccesses => st.UseUnalignedAccesses
  | .UseMultiplyToLenIntrinsic => st.UseMultiplyToLenIntrinsic
  | .UseSquareToLenIntrinsic => st.UseSquareToLenIntrinsic
  | .UseMulAddIntrinsic => st.UseMulAddIntrinsic
  | .UseMontgomeryMultiplyIntrinsic => st.UseMontgomeryMultiplyIntrinsic
  | .UseMontgomerySquareIntrinsic => st.UseMontgomerySquareIntrinsic
  | .OptoScheduling => st.OptoScheduling
  | .AlignVector => st.AlignVector

/-- A pure section preserves every origin bit, and never turns a sticky knob
that the operator explicitly set to false back to true. -/
def stickyPres (f : St → St) : Prop :=
  ∀ s k, (getKnob (f s) k).isDefault = (getKnob s k).isDefault ∧
    ((getKnob s k).isDefault = false → (getKnob s k).value = false → (getKnob (f s) k).value = false)

-- Scenario inputs --------------------------------------------------------

/-- Operator runs with `-XX:-UsePopCountInstruction`. -/
def c1CounterIn : St := { baseSt with UsePopCountInstruction := ⟨false, false⟩ }

/-- Operator runs with `-XX:-UseLSE`. -/
def c1WitnessIn : St := { baseSt with UseLSE := ⟨false, false⟩ }

/-- SVE hardware, operator requests `-XX:MaxVectorSize=8` (below the SVE
minimum of 16 bytes). -/
def c2CounterIn : St := { baseSt with features := CPU_SVE, MaxVectorSize := ⟨8, false⟩ }

/-- AES hardware, operator runs with `-XX:+UseAES -XX:-UseAESIntrinsics
-XX:-UseAESCTRIntrinsics`: the master stays true with every sub knob false. -/
def c3CounterIn : St :=
  { baseSt with features := CPU_AES, UseAES := ⟨true, false⟩,
                UseAESIntrinsics := ⟨false, false⟩, UseAESCTRIntrinsics := ⟨false, false⟩ }

/-- Pre-release ThunderX hardware: Cavium, model 0xA1, variant 0. -/
def c4In : St := { baseSt with cpu := CPU_CAVIUM, model := 0xA1, variant := 0 }

/-- A variant-0 CPU of the given vendor/model with an otherwise benign
configuration. -/
def benignIn (cpu model : Int) : St := { baseSt with cpu := cpu, model := model }

/-- SVE hardware, operator requests `-XX:MaxVectorSize=32`, and the kernel
grants 48 bytes (a non-power-of-two) on the write-then-read-back call. -/
def c5CounterIn : St :=
  { baseSt with features := CPU_SVE, MaxVectorSize := ⟨32, false⟩,
                set_and_get_current_sve_vector_length := fun _ => 48 }

/-- SVE hardware, operator requests `-XX:MaxVectorSize=32`, and the kernel
grants 32 bytes (a valid SVE length) on every write-then-read-back call. -/
def c5WitnessIn : St :=
  { baseSt with features := CPU_SVE, MaxVectorSize := ⟨32, false⟩,
                set_and_get_current_sve_vector_length := fun _ => 32 }

/-- AES hardware, operator runs with `-XX:+UseAESIntrinsics -XX:-UseAES`. -/
def c10In : St :=
  { baseSt with features := CPU_AES, UseAESIntrinsics := ⟨true, false⟩, UseAES := ⟨false, false⟩ }

/-- Hardware without the AES bit, operator runs with `-XX:+UseAESIntrinsics`. -/
def c7In : St := { baseSt with UseAESIntrinsics := ⟨true, false⟩ }

/-- SVE active with an operator-set MaxVectorSize of 8, as seen at the
COMPILER2 MaxVectorSize section. -/
def c2PhaseIn : St := { baseSt with UseSVE := ⟨1, true⟩, MaxVectorSize := ⟨8, false⟩ }

/-- NEON-path states with a user-set MaxVectorSize of 4, 32 and 12. -/
def c9LowIn : St := { baseSt with MaxVectorSize := ⟨4, false⟩ }

/-- See `c9LowIn`. -/
def c9HighIn : St := { baseSt with MaxVectorSize := ⟨32, false⟩ }

/-- See `c9LowIn`. -/
def c9BadIn : St := { baseSt with MaxVectorSize := ⟨12, false⟩ }


/-- The state feeding the AES section inside `pureB` (quirk tail, CRC and
LSE sections applied). -/
def aesInput (s : St) : St :=
  lsePhase (crcPhase (stxrQuirk (armSignumQuirk (neoverseQuirk (a73Quirk
    (a53Quirk (hisiliconQuirk (thunderX2Quirk s))))))))

/-- The state feeding the SHA master reset (lines 374-376) inside `pureB`. -/
def shaResetInput (s : St) : St := shaPhase (miscIntrinsicsPhase (aesPhase (aesInput s)))

/-- The state feeding the SVE length validation (lines 412-426) inside
`pureB`. -/
def sveLengthInput (s : St) : St :=
  sveTierPhase (zvaPhase (ghashBase64Phase (shaResetPhase (shaResetInput s))))

-- ========================= THEOREMS BELOW =============================

/-- C2 (counterexample): with SVE present and the operator requesting
`MaxVectorSize=8` (below the architecture minimum of 16), initialization does
NOT abort: it completes with SVE disabled, `MaxVectorSize` kept at 8, and a
fixed advisory emitted. -/
theorem c2_no_abort_counterexample :
    (vmInit c2CounterIn).toOption.map
      (fun s => (s.UseSVE.value, s.MaxVectorSize.value,
        s.warnings.contains "SVE does not support vector length less than 16 bytes. Disabling SVE.")) =
      some (0, 8, true) := by decide

/-- C2 (amended): when SVE is active and the user-set `MaxVectorSize` is
below 16, the section emits the fixed advisory (carrying neither the
requested nor the minimum value), disables SVE, and continues without
aborting. -/
theorem c2_small_mvs_warns_and_disables (st : St) (h1 : 0 < st.UseSVE.value)
    (h2 : st.MaxVectorSize.isDefault = false) (h3 : st.MaxVectorSize.value < 16) :
    sveMaxVectorPhase st = .ok { st with
      UseSVE := setV st.UseSVE 0
      warnings := st.warnings ++ ["SVE does not support vector length less than 16 bytes. Disabling SVE."] } := by
  simp [sveMaxVectorPhase, h1, h2, h3]

/-- Witness for `c2_small_mvs_warns_and_disables` at a concrete state. -/
theorem c2_small_mvs_witness :
    sveMaxVectorPhase c2PhaseIn = .ok { c2PhaseIn with
      UseSVE := setV c2PhaseIn.UseSVE 0
      warnings := c2PhaseIn.warnings ++ ["SVE does not support vector length less than 16 bytes. Disabling SVE."] } :=
  c2_small_mvs_warns_and_disables c2PhaseIn (by decide) (by decide) (by decide)

/-- C6: `get_spin_wait_desc` rejects any string outside {nop, isb, yield,
none} with a fatal message naming the valid set; rejects an explicitly
positive `OnSpinWaitInstCount` when the strategy is (default or explicit)
"none"; and yields the `{NOP, 0}` descriptor for "nop" with the count left
at its default. -/
theorem c6_spin_wait_contract (inst : JVMFlag String) (count : JVMFlag Int) :
    (inst.value ≠ "nop" → inst.value ≠ "isb" → inst.value ≠ "yield" → inst.value ≠ "none" →
      get_spin_wait_desc inst count = .error "The options for OnSpinWaitInst are nop, isb, yield, and none") ∧
    (inst.value = "none" → count.isDefault = false → 0 < count.value →
      get_spin_wait_desc inst count = .error "OnSpinWaitInstCount cannot be used for OnSpinWaitInst 'none'") ∧
    (inst.value = "nop" → count = ⟨onSpinWaitInstCountDefault, true⟩ →
      get_spin_wait_desc inst count = .ok ⟨.NOP, 0⟩) := by
  refine ⟨fun h1 h2 h3 h4 => ?_, fun h1 h2 h3 => ?_, fun h1 h2 => ?_⟩
  · simp [get_spin_wait_desc, h1, h2, h3, h4]
  · simp [get_spin_wait_desc, h1, h2, h3]
  · subst h2; simp [get_spin_wait_desc, h1, onSpinWaitInstCountDefault]

/-- Witness for `c6_spin_wait_contract` at three concrete flag pairs. -/
theorem c6_spin_wait_witness :
    get_spin_wait_desc ⟨"bogus", false⟩ ⟨0, true⟩ =
      .error "The options for OnSpinWaitInst are nop, isb, yield, and none" ∧
    get_spin_wait_desc ⟨"none", true⟩ ⟨2, false⟩ =
      .error "OnSpinWaitInstCount cannot be used for OnSpinWaitInst 'none'" ∧
    get_spin_wait_desc ⟨"nop", false⟩ ⟨0, true⟩ = .ok ⟨.NOP, 0⟩ :=
  ⟨(c6_spin_wait_contract ⟨"bogus", false⟩ ⟨0, true⟩).1 (by decide) (by decide) (by decide) (by decide),
   (c6_spin_wait_contract ⟨"none", true⟩ ⟨2, false⟩).2.1 rfl rfl (by decide),
   (c6_spin_wait_contract ⟨"nop", false⟩ ⟨0, true⟩).2.2 rfl rfl⟩

/-- C9: on the NEON path (`UseSVE == 0`) a user-set power-of-two
`MaxVectorSize` below 8 is clamped to 8 and one above 16 is clamped to 16,
each with an advisory; a non-power-of-two user value is a fatal exit; a
defaulted knob is set to 16. -/
theorem c9_neon_max_vector_size (st : St) (h0 : st.UseSVE.value = 0) :
    (st.MaxVectorSize.isDefault = false → is_power_of_2 st.MaxVectorSize.value = true →
      st.MaxVectorSize.value < 8 →
      neonPhase st = .ok { st with
        warnings := st.warnings ++ ["MaxVectorSize must be at least " ++ toString (8 : Int) ++ " on this platform"]
        MaxVectorSize := setV st.MaxVectorSize 8 }) ∧
    (st.MaxVectorSize.isDefault = false → is_power_of_2 st.MaxVectorSize.value = true →
      16 < st.MaxVectorSize.value →
      neonPhase st = .ok { st with
        warnings := st.warnings ++ ["MaxVectorSize must be at most " ++ toString (16 : Int) ++ " on this platform"]
        MaxVectorSize := setV st.MaxVectorSize 16 }) ∧
    (st.MaxVectorSize.isDefault = false → is_power_of_2 st.MaxVectorSize.value = false →
      neonPhase st = .error ⟨"Unsupported MaxVectorSize: " ++ toString st.MaxVectorSize.value, st⟩) ∧
    (st.MaxVectorSize.isDefault = true →
      neonPhase st = .ok { st with MaxVectorSize := setV st.MaxVectorSize 16 }) := by
  refine ⟨fun h1 h2 h3 => ?_, fun h1 h2 h3 => ?_, fun h1 h2 => ?_, fun h1 => ?_⟩
  · simp [neonPhase, h0, h1, h2, h3]
  · have h4 : ¬(st.MaxVectorSize.value < 8) := by omega
    have h5 : st.MaxVectorSize.value > 16 := h3
    simp [neonPhase, h0, h1, h2, h4, h5]
  · simp [neonPhase, h0, h1, h2]
  · simp [neonPhase, h0, h1]

/-- Witness for `c9_neon_max_vector_size` at four concrete states. -/
theorem c9_neon_witness :
    neonPhase c9LowIn = .ok { c9LowIn with
      warnings := c9LowIn.warnings ++ ["MaxVectorSize must be at least " ++ toString (8 : Int) ++ " on this platform"]
      MaxVectorSize := setV c9LowIn.MaxVectorSize 8 } ∧
    neonPhase c9HighIn = .ok { c9HighIn with
      warnings := c9HighIn.warnings ++ ["MaxVectorSize must be at most " ++ toString (16 : Int) ++ " on this platform"]
      MaxVectorSize := setV c9HighIn.MaxVectorSize 16 } ∧
    neonPhase c9BadIn = .error ⟨"Unsupported MaxVectorSize: " ++ toString c9BadIn.MaxVectorSize.value, c9BadIn⟩ ∧
    neonPhase baseSt = .ok { baseSt with MaxVectorSize := setV baseSt.MaxVectorSize 16 } :=
  ⟨(c9_neon_max_vector_size c9LowIn rfl).1 rfl (by decide) (by decide),
   (c9_neon_max_vector_size c9HighIn rfl).2.1 rfl (by decide) (by decide),
   (c9_neon_max_vector_size c9BadIn rfl).2.2.1 rfl (by decide),
   (c9_neon_max_vector_size baseSt rfl).2.2.2 rfl⟩

/-- A line hit in `check_info_lines` (first signature checked before the
second, first hitting line wins) reports detection with one of the two
verdicts. -/
theorem check_info_lines_hit (v1 : String) (t1 : VirtualizationType) (v : String)
    (t2 cur : VirtualizationType) :
    ∀ ls : List String, ls.any (fun l => strcasestrContains l v1 || strcasestrContains l v) = true →
      (check_info_lines v1 t1 (some v) t2 cur ls).1 = true ∧
      ((check_info_lines v1 t1 (some v) t2 cur ls).2 = t1 ∨
       (check_info_lines v1 t1 (some v) t2 cur ls).2 = t2)
  | [], h => by simp at h
  | l :: ls, h => by
    by_cases hc1 : strcasestrContains l v1
    · simp [check_info_lines, hc1]
    · by_cases hc2 : strcasestrContains l v
      · simp [check_info_lines, hc1, hc2]
      · simp only [List.any_cons, hc1, hc2, Bool.or_self, Bool.false_or] at h
        simpa [check_info_lines, hc1, hc2] using check_info_lines_hit v1 t1 v t2 cur ls h

/-- When no line matches, the verdict is left unchanged. -/
theorem check_info_lines_miss (v1 : String) (t1 : VirtualizationType) (v2 : Option String)
    (t2 cur : VirtualizationType) :
    ∀ ls : List String, (check_info_lines v1 t1 v2 t2 cur ls).1 = false →
      (check_info_lines v1 t1 v2 t2 cur ls).2 = cur
  | [], _ => rfl
  | l :: ls, h => by
    by_cases hc1 : strcasestrContains l v1
    · simp [check_info_lines, hc1] at h
    · cases v2 with
      | none =>
        simp only [check_info_lines, hc1, if_false, ite_false] at h ⊢
        exact check_info_lines_miss v1 t1 none t2 cur ls (by simpa [hc1] using h)
      | some v =>
        by_cases hc2 : strcasestrContains l v
        · simp [check_info_lines, hc1, hc2] at h
        · simp only [check_info_lines, hc1, hc2] at h ⊢
          exact check_info_lines_miss v1 t1 (some v) t2 cur ls (by simpa [hc1, hc2] using h)

/-- A missed (or unopenable) info file leaves the verdict unchanged. -/
theorem check_info_file_miss (c : Option (List String)) (v1 : String) (t1 : VirtualizationType)
    (v2 : Option String) (t2 cur : VirtualizationType)
    (h : (check_info_file c v1 t1 v2 t2 cur).1 = false) :
    (check_info_file c v1 t1 v2 t2 cur).2 = cur := by
  cases c with
  | none => rfl
  | some ls => exact check_info_lines_miss v1 t1 v2 t2 cur ls h

/-- The two-signature line scan is exactly: find the first line matching
either signature; the verdict is the FIRST signature's type when that line
matches it, and the second signature's type otherwise. -/
theorem check_info_lines_char (v1 : String) (t1 : VirtualizationType) (v : String)
    (t2 cur : VirtualizationType) :
    ∀ ls : List String, check_info_lines v1 t1 (some v) t2 cur ls =
      match ls.find? (fun l => strcasestrContains l v1 || strcasestrContains l v) with
      | none => (false, cur)
      | some l => (true, if strcasestrContains l v1 then t1 else t2)
  | [] => rfl
  | l :: ls => by
    by_cases hc1 : strcasestrContains l v1
    · simp [check_info_lines, hc1]
    · by_cases hc2 : strcasestrContains l v
      · simp [check_info_lines, hc1, hc2]
      · simp [check_info_lines, hc1, hc2, check_info_lines_char v1 t1 v t2 cur ls]

/-- The single-signature line scan is exactly: find the first line matching
the signature; a hit records that signature's type. -/
theorem check_info_lines_char_none (v1 : String) (t1 : VirtualizationType)
    (t2 cur : VirtualizationType) :
    ∀ ls : List String, check_info_lines v1 t1 none t2 cur ls =
      match ls.find? (fun l => strcasestrContains l v1) with
      | none => (false, cur)
      | some _ => (true, t1)
  | [] => rfl
  | l :: ls => by
    by_cases hc1 : strcasestrContains l v1
    · simp [check_info_lines, hc1]
    · simp [check_info_lines, hc1, check_info_lines_char_none v1 t1 t2 cur ls]

/-- C8: the product-name probe records the verdict corresponding to the
matched signature (the first matching line yields KVM when it matches "KVM",
else VMWare); on any such hit the hypervisor-type file is never read (the
result does not depend on it) and the overall verdict is the probe's; when
the product-name probe misses, the second file alone decides, for the Xen
signature only (a hit there records XenPVHVM); an unopenable file is "not
detected" with the verdict unchanged. -/
theorem c8_virtualization_probe (lines : List String) (t t' pn : Option (List String)) :
    (check_info_file (some lines) "KVM" .KVM (some "VMWare") .VMWare .NoDetectedVirtualization =
      match lines.find? (fun l => strcasestrContains l "KVM" || strcasestrContains l "VMWare") with
      | none => (false, .NoDetectedVirtualization)
      | some l => (true, if strcasestrContains l "KVM" then VirtualizationType.KVM else .VMWare)) ∧
    ((lines.any (fun l => strcasestrContains l "KVM" || strcasestrContains l "VMWare")) = true →
      check_virtualizations (some lines) t = check_virtualizations (some lines) t' ∧
      check_virtualizations (some lines) t =
        (check_info_file (some lines) "KVM" .KVM (some "VMWare") .VMWare
          .NoDetectedVirtualization).2) ∧
    ((check_info_file pn "KVM" .KVM (some "VMWare") .VMWare .NoDetectedVirtualization).1 = false →
      check_virtualizations pn t =
        (check_info_file t "Xen" .XenPVHVM none .NoDetectedVirtualization
          .NoDetectedVirtualization).2) ∧
    (check_info_file t "Xen" .XenPVHVM none .NoDetectedVirtualization .NoDetectedVirtualization =
      match t with
      | none => (false, .NoDetectedVirtualization)
      | some ls =>
        match ls.find? (fun l => strcasestrContains l "Xen") with
        | none => (false, .NoDetectedVirtualization)
        | some _ => (true, .XenPVHVM)) ∧
    check_virtualizations none none = .NoDetectedVirtualization := by
  refine ⟨?_, fun h => ?_, fun h => ?_, ?_, rfl⟩
  · exact check_info_lines_char "KVM" .KVM "VMWare" .VMWare .NoDetectedVirtualization lines
  · have hchar := check_info_lines_char "KVM" .KVM "VMWare" .VMWare .NoDetectedVirtualization lines
    cases hf : lines.find? (fun l => strcasestrContains l "KVM" || strcasestrContains l "VMWare") with
    | none =>
      exfalso
      rw [List.find?_eq_none] at hf
      simp only [List.any_eq_true] at h
      obtain ⟨l, hl, hp⟩ := h
      exact absurd hp (by simpa using hf l hl)
    | some l =>
      have h1 : (check_info_lines "KVM" .KVM (some "VMWare") .VMWare .NoDetectedVirtualization
          lines).1 = true := by
        rw [hchar, hf]
      exact ⟨by simp [check_virtualizations, check_info_file, h1],
        by simp [check_virtualizations, check_info_file, h1]⟩
  · have h2 := check_info_file_miss pn "KVM" .KVM (some "VMWare") .VMWare .NoDetectedVirtualization h
    simp [check_virtualizations, h, h2]
  · cases t with
    | none => rfl
    | some ls =>
      simp only [check_info_file]
      exact check_info_lines_char_none "Xen" .XenPVHVM .NoDetectedVirtualization
        .NoDetectedVirtualization ls

/-- Witness for `c8_virtualization_probe` at concrete file contents: a
product-name file whose line matches only KVM, and a hypervisor-type file
whose line matches Xen. -/
theorem c8_virtualization_witness :
    (check_info_file (some ["a kvm b"]) "KVM" .KVM (some "VMWare") .VMWare
        .NoDetectedVirtualization =
      match ["a kvm b"].find? (fun l => strcasestrContains l "KVM" || strcasestrContains l "VMWare") with
      | none => (false, .NoDetectedVirtualization)
      | some l => (true, if strcasestrContains l "KVM" then VirtualizationType.KVM else .VMWare)) ∧
    (check_virtualizations (some ["a kvm b"]) (some ["x"]) =
        check_virtualizations (some ["a kvm b"]) none ∧
      check_virtualizations (some ["a kvm b"]) (some ["x"]) =
        (check_info_file (some ["a kvm b"]) "KVM" .KVM (some "VMWare") .VMWare
          .NoDetectedVirtualization).2) ∧
    check_virtualizations none (some ["xen here"]) =
      (check_info_file (some ["xen here"]) "Xen" .XenPVHVM none .NoDetectedVirtualization
        .NoDetectedVirtualization).2 :=
  ⟨(c8_virtualization_probe ["a kvm b"] (some ["x"]) none none).1,
   (c8_virtualization_probe ["a kvm b"] (some ["x"]) none none).2.1 (by decide),
   (c8_virtualization_probe [] (some ["xen here"]) none none).2.2.1 (by decide)⟩

/-- A non-aborting run of `vmInit` decomposes into its four fallible
stages. -/
theorem vmInit_ok_decomp (inp st : St) (h : vmInit inp = .ok st) :
    ∃ s1 s2 s3 s4, thunderXQuirk (pureA inp) = .ok s1 ∧ sveMaxVectorPhase (pureB s1) = .ok s2 ∧
      neonPhase s2 = .ok s3 ∧ spinWaitPhase (optoAlignPhase s3) = .ok s4 ∧ st = virtPhase s4 := by
  unfold vmInit at h
  cases h1 : thunderXQuirk (pureA inp) with
  | error e => rw [h1] at h; exact absurd h (by simp)
  | ok s1 =>
    rw [h1] at h; simp only [] at h
    cases h2 : sveMaxVectorPhase (pureB s1) with
    | error e => rw [h2] at h; exact absurd h (by simp)
    | ok s2 =>
      rw [h2] at h; simp only [] at h
      cases h3 : neonPhase s2 with
      | error e => rw [h3] at h; exact absurd h (by simp)
      | ok s3 =>
        rw [h3] at h; simp only [] at h
        cases h4 : spinWaitPhase (optoAlignPhase s3) with
        | error e => rw [h4] at h; exact absurd h (by simp)
        | ok s4 =>
          rw [h4] at h; simp only [Except.ok.injEq] at h
          exact ⟨s1, s2, s3, s4, rfl, h2, h3, h4, h.symm⟩

/-- The COMPILER2 SVE MaxVectorSize section touches only `MaxVectorSize`,
`UseSVE`, `_initial_sve_vector_length` and the warning list. -/
theorem sveMaxVector_ok_frame (a b : St) (h : sveMaxVectorPhase a = .ok b) :
    b.UseAES = a.UseAES ∧ b.UseAESIntrinsics = a.UseAESIntrinsics ∧
    b.OnSpinWaitInst = a.OnSpinWaitInst ∧ b.OnSpinWaitInstCount = a.OnSpinWaitInstCount ∧
    (∀ k, getKnob b k = getKnob a k) ∧ (∀ w, w ∈ a.warnings → w ∈ b.warnings) := by
  unfold sveMaxVectorPhase at h
  dsimp only at h
  split_ifs at h <;>
    first
    | (rw [Except.ok.injEq] at h; subst h;
       refine ⟨rfl, rfl, rfl, rfl, fun k => by cases k <;> rfl, fun w hw => ?_⟩ <;>
         simp [List.mem_append, hw])
    | simp at h

/-- The NEON MaxVectorSize section touches only `MaxVectorSize` and the
warning list. -/
theorem neon_ok_frame (a b : St) (h : neonPhase a = .ok b) :
    b.UseAES = a.UseAES ∧ b.UseAESIntrinsics = a.UseAESIntrinsics ∧
    b.OnSpinWaitInst = a.OnSpinWaitInst ∧ b.OnSpinWaitInstCount = a.OnSpinWaitInstCount ∧
    b.UseSVE = a.UseSVE ∧ b.initial_sve_vector_length = a.initial_sve_vector_length ∧
    (∀ k, getKnob b k = getKnob a k) ∧ (∀ w, w ∈ a.warnings → w ∈ b.warnings) := by
  unfold neonPhase at h
  dsimp only at h
  split_ifs at h <;>
    first
    | (rw [Except.ok.injEq] at h; subst h;
       refine ⟨rfl, rfl, rfl, rfl, rfl, rfl, fun k => by cases k <;> rfl, fun w hw => ?_⟩ <;>
         simp [List.mem_append, hw])
    | simp at h

/-- The spin-wait assignment touches only `_spin_wait`. -/
theorem spinWait_ok_frame (a b : St) (h : spinWaitPhase a = .ok b) :
    b.UseAES = a.UseAES ∧ b.UseAESIntrinsics = a.UseAESIntrinsics ∧
    b.UseSVE = a.UseSVE ∧ b.initial_sve_vector_length = a.initial_sve_vector_length ∧
    (∀ k, getKnob b k = getKnob a k) ∧ (∀ w, w ∈ a.warnings → w ∈ b.warnings) := by
  unfold spinWaitPhase at h
  cases hd : get_spin_wait_desc a.OnSpinWaitInst a.OnSpinWaitInstCount with
  | error m => rw [hd] at h; exact absurd h (by simp)
  | ok d =>
    rw [hd] at h; simp only [Except.ok.injEq] at h; subst h
    exact ⟨rfl, rfl, rfl, rfl, fun k => by cases k <;> rfl, fun w hw => hw⟩

set_option maxHeartbeats 1000000 in
/-- The ThunderX rule, when it does not abort, changes only its three
guarded knobs: every origin bit is kept, and a knob the operator set
explicitly is left untouched. -/
theorem thunderX_ok_frame (a b : St) (h : thunderXQuirk a = .ok b) :
    b.UseAES = a.UseAES ∧ b.UseAESIntrinsics = a.UseAESIntrinsics ∧
    b.UseAESCTRIntrinsics = a.UseAESCTRIntrinsics ∧ b.features = a.features ∧
    b.warnings = a.warnings ∧ b.UseSVE = a.UseSVE ∧ b.MaxVectorSize = a.MaxVectorSize ∧
    b.initial_sve_vector_length = a.initial_sve_vector_length ∧
    b.get_current_sve_vector_length = a.get_current_sve_vector_length ∧
    b.set_and_get_current_sve_vector_length = a.set_and_get_current_sve_vector_length ∧
    b.OnSpinWaitInst = a.OnSpinWaitInst ∧ b.OnSpinWaitInstCount = a.OnSpinWaitInstCount ∧
    b.UsePopCountInstruction = a.UsePopCountInstruction ∧
    (∀ k, (getKnob b k).isDefault = (getKnob a k).isDefault ∧
      ((getKnob a k).isDefault = false → getKnob b k = getKnob a k)) := by
  unfold thunderXQuirk at h
  dsimp only at h
  by_cases h0 : (a.cpu = CPU_CAVIUM ∧ a.model = 0xA1) ∧ a.variant = 0
  · rw [if_pos h0] at h; exact Except.noConfusion h
  · rw [if_neg h0] at h
    rw [Except.ok.injEq] at h; subst h
    refine ⟨rfl, rfl, rfl, rfl, rfl, rfl, rfl, rfl, rfl, rfl, rfl, rfl, rfl, fun k => ?_⟩
    cases k <;>
      exact ⟨by simp only [getKnob] <;> first | rfl | (split <;> rfl),
             fun hd => by simp only [getKnob] at hd ⊢ <;> simp [hd]⟩

/-- Each section only appends to the warning list. -/
theorem warn_mono_misc (x : St) (w : String) (h : w ∈ x.warnings) :
    w ∈ (miscIntrinsicsPhase x).warnings := by
  simp only [miscIntrinsicsPhase]
  exact List.mem_append_left _ h

theorem warn_mono_sha (x : St) (w : String) (h : w ∈ x.warnings) :
    w ∈ (shaPhase x).warnings := by
  simp only [shaPhase]
  exact List.mem_append_left _ (List.mem_append_left _ (List.mem_append_left _
    (List.mem_append_left _ (List.mem_append_left _ h))))

theorem warn_mono_shaReset (x : St) (w : String) (h : w ∈ x.warnings) :
    w ∈ (shaResetPhase x).warnings := h

theorem warn_mono_ghash (x : St) (w : String) (h : w ∈ x.warnings) :
    w ∈ (ghashBase64Phase x).warnings := by
  simp only [ghashBase64Phase]
  exact List.mem_append_left _ h

theorem warn_mono_zva (x : St) (w : String) (h : w ∈ x.warnings) :
    w ∈ (zvaPhase x).warnings := by
  simp only [zvaPhase]
  exact List.mem_append_left _ h

theorem warn_mono_sveTier (x : St) (w : String) (h : w ∈ x.warnings) :
    w ∈ (sveTierPhase x).warnings := by
  simp only [sveTierPhase]
  exact List.mem_append_left _ h

theorem warn_mono_sveLength (x : St) (w : String) (h : w ∈ x.warnings) :
    w ∈ (sveLengthPhase x).warnings := by
  simp only [sveLengthPhase]
  exact List.mem_append_left _ (List.mem_append_left _ h)

theorem warn_mono_up (x : St) (w : String) (h : w ∈ x.warnings) :
    w ∈ (unalignedPopcntPhase x).warnings := by
  simp only [unalignedPopcntPhase]
  exact List.mem_append_left _ h

theorem warn_mono_c2a (x : St) (w : String) (h : w ∈ x.warnings) :
    w ∈ (compiler2APhase x).warnings := h

/-- Warnings present after the AES section survive to the end of the pure
middle `pureB`. -/
theorem warn_mono_pureB_after_aes (s : St) (w : String)
    (h : w ∈ (aesPhase (lsePhase (crcPhase (stxrQuirk (armSignumQuirk (neoverseQuirk
      (a73Quirk (a53Quirk (hisiliconQuirk (thunderX2Quirk s)))))))))).warnings) :
    w ∈ (pureB s).warnings := by
  unfold pureB
  exact warn_mono_c2a _ w (warn_mono_up _ w (warn_mono_sveLength _ w (warn_mono_sveTier _ w
    (warn_mono_zva _ w (warn_mono_ghash _ w (warn_mono_shaReset _ w (warn_mono_sha _ w
      (warn_mono_misc _ w h))))))))

/-- After the AES section, enabled AES intrinsics imply the enabled master
switch (lines 280-304). -/
theorem aes_implies_master (y : St) (h : (aesPhase y).UseAESIntrinsics.value = true) :
    (aesPhase y).UseAES.value = true := by
  by_cases hp : y.features &&& CPU_AES = 0 <;>
    cases hv1 : y.UseAES.value <;> cases hd1 : y.UseAES.isDefault <;>
    cases hv2 : y.UseAESIntrinsics.value <;>
    simp_all [aesPhase, hp, hv1, hd1, hv2, setV]

/-- Lines 284-287: with the AES bit present, explicitly enabled intrinsics
over an explicitly disabled master force the master on, with a warning. -/
theorem aes_conflict_forces_master (y : St) (hp : y.features &&& CPU_AES ≠ 0)
    (hv2 : y.UseAESIntrinsics.value = true) (hv1 : y.UseAES.value = false)
    (hd1 : y.UseAES.isDefault = false) :
    (aesPhase y).UseAES.value = true ∧
    "UseAESIntrinsics enabled, but UseAES not, enabling" ∈ (aesPhase y).warnings := by
  constructor <;> simp [aesPhase, hp, hv2, hv1, hd1, setV, List.mem_append]

/-- Lines 291-304: without the AES bit, requested AES intrinsics are forced
off with an advisory, and the master ends up false. -/
theorem aes_absent_disables (y : St) (hp : y.features &&& CPU_AES = 0)
    (hv2 : y.UseAESIntrinsics.value = true) :
    (aesPhase y).UseAES.value = false ∧ (aesPhase y).UseAESIntrinsics.value = false ∧
    "AES intrinsics are not available on this CPU" ∈ (aesPhase y).warnings := by
  refine ⟨?_, ?_, ?_⟩
  · by_cases hv1 : y.UseAES.value = true <;> simp [aesPhase, hp, hv1, setV]
  · simp [aesPhase, hp, hv2, setV]
  · simp [aesPhase, hp, hv2, setV, List.mem_append]

/-- Lines 374-376 establish the no-dangling-master invariant for the SHA
family. -/
theorem sha_reset_invariant (y : St) (h : (shaResetPhase y).UseSHA.value = true) :
    ((shaResetPhase y).UseSHA1Intrinsics.value || (shaResetPhase y).UseSHA256Intrinsics.value ||
     (shaResetPhase y).UseSHA3Intrinsics.value || (shaResetPhase y).UseSHA512Intrinsics.value) = true := by
  by_cases hc : (y.UseSHA1Intrinsics.value || y.UseSHA256Intrinsics.value ||
      y.UseSHA3Intrinsics.value || y.UseSHA512Intrinsics.value) = false
  · simp [shaResetPhase, hc, setV] at h
  · show (y.UseSHA1Intrinsics.value || y.UseSHA256Intrinsics.value ||
      y.UseSHA3Intrinsics.value || y.UseSHA512Intrinsics.value) = true
    cases hb : (y.UseSHA1Intrinsics.value || y.UseSHA256Intrinsics.value ||
      y.UseSHA3Intrinsics.value || y.UseSHA512Intrinsics.value)
    · exact absurd hb hc
    · rfl

/-- Lines 412-426: whenever SVE stays enabled, the recorded vector length
passed the power-of-two / multiple-of-minimum validation. -/
theorem sve_length_invariant (y : St) (h : 0 < (sveLengthPhase y).UseSVE.value) :
    is_power_of_2 (sveLengthPhase y).initial_sve_vector_length = true ∧
    (sveLengthPhase y).initial_sve_vector_length % sve_vl_min = 0 := by
  by_cases hA : 0 < y.UseSVE.value
  · by_cases hB : y.get_current_sve_vector_length < 0 ∨
      (y.get_current_sve_vector_length = 0 ∨ y.get_current_sve_vector_length % sve_vl_min ≠ 0 ∨
        is_power_of_2 y.get_current_sve_vector_length = false)
    · simp only [sveLengthPhase] at h
      rw [if_pos ⟨hA, hB⟩] at h
      exact absurd h (by simp [setV])
    · push_neg at hB
      have hneg : ¬y.get_current_sve_vector_length < 0 := not_lt.mpr hB.1
      have hmod : y.get_current_sve_vector_length % sve_vl_min = 0 := hB.2.2.1
      have hpow : is_power_of_2 y.get_current_sve_vector_length ≠ false := hB.2.2.2
      have hcond : 0 < y.UseSVE.value ∧ ¬y.get_current_sve_vector_length < 0 ∧
          ¬(y.get_current_sve_vector_length = 0 ∨ y.get_current_sve_vector_length % sve_vl_min ≠ 0 ∨
            is_power_of_2 y.get_current_sve_vector_length = false) := by
        refine ⟨hA, hneg, ?_⟩
        rintro (hx | hx | hx)
        · exact hB.2.1 hx
        · exact hx hmod
        · exact hpow hx
      simp only [sveLengthPhase]
      rw [if_pos hcond]
      refine ⟨?_, hmod⟩
      cases hp2 : is_power_of_2 y.get_current_sve_vector_length
      · exact absurd hp2 hpow
      · rfl
  · have hnc : ¬(0 < y.UseSVE.value ∧ (y.get_current_sve_vector_length < 0 ∨
      (y.get_current_sve_vector_length = 0 ∨ y.get_current_sve_vector_length % sve_vl_min ≠ 0 ∨
        is_power_of_2 y.get_current_sve_vector_length = false))) := fun hx => hA hx.1
    simp only [sveLengthPhase] at h
    rw [if_neg hnc] at h
    exact absurd h hA

-- One-layer projection facts: each section leaves these fields untouched. --
theorem miscIntrinsicsPhase_keeps_UseAES (x : St) : (miscIntrinsicsPhase x).UseAES = x.UseAES := rfl
theorem miscIntrinsicsPhase_keeps_UseAESIntrinsics (x : St) : (miscIntrinsicsPhase x).UseAESIntrinsics = x.UseAESIntrinsics := rfl
theorem shaPhase_keeps_UseAES (x : St) : (shaPhase x).UseAES = x.UseAES := rfl
theorem shaPhase_keeps_UseAESIntrinsics (x : St) : (shaPhase x).UseAESIntrinsics = x.UseAESIntrinsics := rfl
theorem shaResetPhase_keeps_UseAES (x : St) : (shaResetPhase x).UseAES = x.UseAES := rfl
theorem shaResetPhase_keeps_UseAESIntrinsics (x : St) : (shaResetPhase x).UseAESIntrinsics = x.UseAESIntrinsics := rfl
theorem ghashBase64Phase_keeps_UseAES (x : St) : (ghashBase64Phase x).UseAES = x.UseAES := rfl
theorem ghashBase64Phase_keeps_UseAESIntrinsics (x : St) : (ghashBase64Phase x).UseAESIntrinsics = x.UseAESIntrinsics := rfl
theorem zvaPhase_keeps_UseAES (x : St) : (zvaPhase x).UseAES = x.UseAES := rfl
theorem zvaPhase_keeps_UseAESIntrinsics (x : St) : (zvaPhase x).UseAESIntrinsics = x.UseAESIntrinsics := rfl
theorem sveTierPhase_keeps_UseAES (x : St) : (sveTierPhase x).UseAES = x.UseAES := rfl
theorem sveTierPhase_keeps_UseAESIntrinsics (x : St) : (sveTierPhase x).UseAESIntrinsics = x.UseAESIntrinsics := rfl
theorem sveLengthPhase_keeps_UseAES (x : St) : (sveLengthPhase x).UseAES = x.UseAES := rfl
theorem sveLengthPhase_keeps_UseAESIntrinsics (x : St) : (sveLengthPhase x).UseAESIntrinsics = x.UseAESIntrinsics := rfl
theorem unalignedPopcntPhase_keeps_UseAES (x : St) : (unalignedPopcntPhase x).UseAES = x.UseAES := rfl
theorem unalignedPopcntPhase_keeps_UseAESIntrinsics (x : St) : (unalignedPopcntPhase x).UseAESIntrinsics = x.UseAESIntrinsics := rfl
theorem compiler2APhase_keeps_UseAES (x : St) : (compiler2APhase x).UseAES = x.UseAES := rfl
theorem compiler2APhase_keeps_UseAESIntrinsics (x : St) : (compiler2APhase x).UseAESIntrinsics = x.UseAESIntrinsics := rfl
theorem lsePhase_keeps_UseAES (x : St) : (lsePhase x).UseAES = x.UseAES := rfl
theorem lsePhase_keeps_UseAESIntrinsics (x : St) : (lsePhase x).UseAESIntrinsics = x.UseAESIntrinsics := rfl
theorem crcPhase_keeps_UseAES (x : St) : (crcPhase x).UseAES = x.UseAES := rfl
theorem crcPhase_keeps_UseAESIntrinsics (x : St) : (crcPhase x).UseAESIntrinsics = x.UseAESIntrinsics := rfl
theorem stxrQuirk_keeps_UseAES (x : St) : (stxrQuirk x).UseAES = x.UseAES := rfl
theorem stxrQuirk_keeps_UseAESIntrinsics (x : St) : (stxrQuirk x).UseAESIntrinsics = x.UseAESIntrinsics := rfl
theorem armSignumQuirk_keeps_UseAES (x : St) : (armSignumQuirk x).UseAES = x.UseAES := rfl
theorem armSignumQuirk_keeps_UseAESIntrinsics (x : St) : (armSignumQuirk x).UseAESIntrinsics = x.UseAESIntrinsics := rfl
theorem neoverseQuirk_keeps_UseAES (x : St) : (neoverseQuirk x).UseAES = x.UseAES := rfl
theorem neoverseQuirk_keeps_UseAESIntrinsics (x : St) : (neoverseQuirk x).UseAESIntrinsics = x.UseAESIntrinsics := rfl
theorem a73Quirk_keeps_UseAES (x : St) : (a73Quirk x).UseAES = x.UseAES := rfl
theorem a73Quirk_keeps_UseAESIntrinsics (x : St) : (a73Quirk x).UseAESIntrinsics = x.UseAESIntrinsics := rfl
theorem a53Quirk_keeps_UseAES (x : St) : (a53Quirk x).UseAES = x.UseAES := rfl
theorem a53Quirk_keeps_UseAESIntrinsics (x : St) : (a53Quirk x).UseAESIntrinsics = x.UseAESIntrinsics := rfl
theorem hisiliconQuirk_keeps_UseAES (x : St) : (hisiliconQuirk x).UseAES = x.UseAES := rfl
theorem hisiliconQuirk_keeps_UseAESIntrinsics (x : St) : (hisiliconQuirk x).UseAESIntrinsics = x.UseAESIntrinsics := rfl
theorem thunderX2Quirk_keeps_UseAES (x : St) : (thunderX2Quirk x).UseAES = x.UseAES := rfl
theorem thunderX2Quirk_keeps_UseAESIntrinsics (x : St) : (thunderX2Quirk x).UseAESIntrinsics = x.UseAESIntrinsics := rfl
theorem prefetchPhase_keeps_UseAES (x : St) : (prefetchPhase x).UseAES = x.UseAES := rfl
theorem prefetchPhase_keeps_UseAESIntrinsics (x : St) : (prefetchPhase x).UseAESIntrinsics = x.UseAESIntrinsics := rfl
theorem dcpopPhase_keeps_UseAES (x : St) : (dcpopPhase x).UseAES = x.UseAES := rfl
theorem dcpopPhase_keeps_UseAESIntrinsics (x : St) : (dcpopPhase x).UseAESIntrinsics = x.UseAESIntrinsics := rfl
theorem emagQuirk_keeps_UseAES (x : St) : (emagQuirk x).UseAES = x.UseAES := rfl
theorem emagQuirk_keeps_UseAESIntrinsics (x : St) : (emagQuirk x).UseAESIntrinsics = x.UseAESIntrinsics := rfl
theorem ampereQuirk_keeps_UseAES (x : St) : (ampereQuirk x).UseAES = x.UseAES := rfl
theorem ampereQuirk_keeps_UseAESIntrinsics (x : St) : (ampereQuirk x).UseAESIntrinsics = x.UseAESIntrinsics := rfl
theorem optoAlignPhase_keeps_UseAES (x : St) : (optoAlignPhase x).UseAES = x.UseAES := rfl
theorem optoAlignPhase_keeps_UseAESIntrinsics (x : St) : (optoAlignPhase x).UseAESIntrinsics = x.UseAESIntrinsics := rfl
theorem virtPhase_keeps_UseAES (x : St) : (virtPhase x).UseAES = x.UseAES := rfl
theorem virtPhase_keeps_UseAESIntrinsics (x : St) : (virtPhase x).UseAESIntrinsics = x.UseAESIntrinsics := rfl
theorem ghashBase64Phase_keeps_UseSHA (x : St) : (ghashBase64Phase x).UseSHA = x.UseSHA := rfl
theorem ghashBase64Phase_keeps_UseSHA1Intrinsics (x : St) : (ghashBase64Phase x).UseSHA1Intrinsics = x.UseSHA1Intrinsics := rfl
theorem ghashBase64Phase_keeps_UseSHA256Intrinsics (x : St) : (ghashBase64Phase x).UseSHA256Intrinsics = x.UseSHA256Intrinsics := rfl
theorem ghashBase64Phase_keeps_UseSHA3Intrinsics (x : St) : (ghashBase64Phase x).UseSHA3Intrinsics = x.UseSHA3Intrinsics := rfl
theorem ghashBase64Phase_keeps_UseSHA512Intrinsics (x : St) : (ghashBase64Phase x).UseSHA512Intrinsics = x.UseSHA512Intrinsics := rfl
theorem zvaPhase_keeps_UseSHA (x : St) : (zvaPhase x).UseSHA = x.UseSHA := rfl
theorem zvaPhase_keeps_UseSHA1Intrinsics (x : St) : (zvaPhase x).UseSHA1Intrinsics = x.UseSHA1Intrinsics := rfl
theorem zvaPhase_keeps_UseSHA256Intrinsics (x : St) : (zvaPhase x).UseSHA256Intrinsics = x.UseSHA256Intrinsics := rfl
theorem zvaPhase_keeps_UseSHA3Intrinsics (x : St) : (zvaPhase x).UseSHA3Intrinsics = x.UseSHA3Intrinsics := rfl
theorem zvaPhase_keeps_UseSHA512Intrinsics (x : St) : (zvaPhase x).UseSHA512Intrinsics = x.UseSHA512Intrinsics := rfl
theorem sveTierPhase_keeps_UseSHA (x : St) : (sveTierPhase x).UseSHA = x.UseSHA := rfl
theorem sveTierPhase_keeps_UseSHA1Intrinsics (x : St) : (sveTierPhase x).UseSHA1Intrinsics = x.UseSHA1Intrinsics := rfl
theorem sveTierPhase_keeps_UseSHA256Intrinsics (x : St) : (sveTierPhase x).UseSHA256Intrinsics = x.UseSHA256Intrinsics := rfl
theorem sveTierPhase_keeps_UseSHA3Intrinsics (x : St) : (sveTierPhase x).UseSHA3Intrinsics = x.UseSHA3Intrinsics := rfl
theorem sveTierPhase_keeps_UseSHA512Intrinsics (x : St) : (sveTierPhase x).UseSHA512Intrinsics = x.UseSHA512Intrinsics := rfl
theorem sveLengthPhase_keeps_UseSHA (x : St) : (sveLengthPhase x).UseSHA = x.UseSHA := rfl
theorem sveLengthPhase_keeps_UseSHA1Intrinsics (x : St) : (sveLengthPhase x).UseSHA1Intrinsics = x.UseSHA1Intrinsics := rfl
theorem sveLengthPhase_keeps_UseSHA256Intrinsics (x : St) : (sveLengthPhase x).UseSHA256Intrinsics = x.UseSHA256Intrinsics := rfl
theorem sveLengthPhase_keeps_UseSHA3Intrinsics (x : St) : (sveLengthPhase x).UseSHA3Intrinsics = x.UseSHA3Intrinsics := rfl
theorem sveLengthPhase_keeps_UseSHA512Intrinsics (x : St) : (sveLengthPhase x).UseSHA512Intrinsics = x.UseSHA512Intrinsics := rfl
theorem unalignedPopcntPhase_keeps_UseSHA (x : St) : (unalignedPopcntPhase x).UseSHA = x.UseSHA := rfl
theorem unalignedPopcntPhase_keeps_UseSHA1Intrinsics (x : St) : (unalignedPopcntPhase x).UseSHA1Intrinsics = x.UseSHA1Intrinsics := rfl
theorem unalignedPopcntPhase_keeps_UseSHA256Intrinsics (x : St) : (unalignedPopcntPhase x).UseSHA256Intrinsics = x.UseSHA256Intrinsics := rfl
theorem unalignedPopcntPhase_keeps_UseSHA3Intrinsics (x : St) : (unalignedPopcntPhase x).UseSHA3Intrinsics = x.UseSHA3Intrinsics := rfl
theorem unalignedPopcntPhase_keeps_UseSHA512Intrinsics (x : St) : (unalignedPopcntPhase x).UseSHA512Intrinsics = x.UseSHA512Intrinsics := rfl
theorem compiler2APhase_keeps_UseSHA (x : St) : (compiler2APhase x).UseSHA = x.UseSHA := rfl
theorem compiler2APhase_keeps_UseSHA1Intrinsics (x : St) : (compiler2APhase x).UseSHA1Intrinsics = x.UseSHA1Intrinsics := rfl
theorem compiler2APhase_keeps_UseSHA256Intrinsics (x : St) : (compiler2APhase x).UseSHA256Intrinsics = x.UseSHA256Intrinsics := rfl
theorem compiler2APhase_keeps_UseSHA3Intrinsics (x : St) : (compiler2APhase x).UseSHA3Intrinsics = x.UseSHA3Intrinsics := rfl
theorem compiler2APhase_keeps_UseSHA512Intrinsics (x : St) : (compiler2APhase x).UseSHA512Intrinsics = x.UseSHA512Intrinsics := rfl
theorem optoAlignPhase_keeps_UseSHA (x : St) : (optoAlignPhase x).UseSHA = x.UseSHA := rfl
theorem optoAlignPhase_keeps_UseSHA1Intrinsics (x : St) : (optoAlignPhase x).UseSHA1Intrinsics = x.UseSHA1Intrinsics := rfl
theorem optoAlignPhase_keeps_UseSHA256Intrinsics (x : St) : (optoAlignPhase x).UseSHA256Intrinsics = x.UseSHA256Intrinsics := rfl
theorem optoAlignPhase_keeps_UseSHA3Intrinsics (x : St) : (optoAlignPhase x).UseSHA3Intrinsics = x.UseSHA3Intrinsics := rfl
theorem optoAlignPhase_keeps_UseSHA512Intrinsics (x : St) : (optoAlignPhase x).UseSHA512Intrinsics = x.UseSHA512Intrinsics := rfl
theorem virtPhase_keeps_UseSHA (x : St) : (virtPhase x).UseSHA = x.UseSHA := rfl
theorem virtPhase_keeps_UseSHA1Intrinsics (x : St) : (virtPhase x).UseSHA1Intrinsics = x.UseSHA1Intrinsics := rfl
theorem virtPhase_keeps_UseSHA256Intrinsics (x : St) : (virtPhase x).UseSHA256Intrinsics = x.UseSHA256Intrinsics := rfl
theorem virtPhase_keeps_UseSHA3Intrinsics (x : St) : (virtPhase x).UseSHA3Intrinsics = x.UseSHA3Intrinsics := rfl
theorem virtPhase_keeps_UseSHA512Intrinsics (x : St) : (virtPhase x).UseSHA512Intrinsics = x.UseSHA512Intrinsics := rfl
theorem unalignedPopcntPhase_keeps_UseSVE (x : St) : (unalignedPopcntPhase x).UseSVE = x.UseSVE := rfl
theorem unalignedPopcntPhase_keeps_initial_sve_vector_length (x : St) : (unalignedPopcntPhase x).initial_sve_vector_length = x.initial_sve_vector_length := rfl
theorem compiler2APhase_keeps_UseSVE (x : St) : (compiler2APhase x).UseSVE = x.UseSVE := rfl
theorem compiler2APhase_keeps_initial_sve_vector_length (x : St) : (compiler2APhase x).initial_sve_vector_length = x.initial_sve_vector_length := rfl
theorem optoAlignPhase_keeps_UseSVE (x : St) : (optoAlignPhase x).UseSVE = x.UseSVE := rfl
theorem optoAlignPhase_keeps_initial_sve_vector_length (x : St) : (optoAlignPhase x).initial_sve_vector_length = x.initial_sve_vector_length := rfl
theorem virtPhase_keeps_UseSVE (x : St) : (virtPhase x).UseSVE = x.UseSVE := rfl
theorem virtPhase_keeps_initial_sve_vector_length (x : St) : (virtPhase x).initial_sve_vector_length = x.initial_sve_vector_length := rfl
theorem miscIntrinsicsPhase_keeps_set_and_get_current_sve_vector_length (x : St) : (miscIntrinsicsPhase x).set_and_get_current_sve_vector_length = x.set_and_get_current_sve_vector_length := rfl
theorem shaPhase_keeps_set_and_get_current_sve_vector_length (x : St) : (shaPhase x).set_and_get_current_sve_vector_length = x.set_and_get_current_sve_vector_length := rfl
theorem shaResetPhase_keeps_set_and_get_current_sve_vector_length (x : St) : (shaResetPhase x).set_and_get_current_sve_vector_length = x.set_and_get_current_sve_vector_length := rfl
theorem ghashBase64Phase_keeps_set_and_get_current_sve_vector_length (x : St) : (ghashBase64Phase x).set_and_get_current_sve_vector_length = x.set_and_get_current_sve_vector_length := rfl
theorem zvaPhase_keeps_set_and_get_current_sve_vector_length (x : St) : (zvaPhase x).set_and_get_current_sve_vector_length = x.set_and_get_current_sve_vector_length := rfl
theorem sveTierPhase_keeps_set_and_get_current_sve_vector_length (x : St) : (sveTierPhase x).set_and_get_current_sve_vector_length = x.set_and_get_current_sve_vector_length := rfl
theorem sveLengthPhase_keeps_set_and_get_current_sve_vector_length (x : St) : (sveLengthPhase x).set_and_get_current_sve_vector_length = x.set_and_get_current_sve_vector_length := rfl
theorem unalignedPopcntPhase_keeps_set_and_get_current_sve_vector_length (x : St) : (unalignedPopcntPhase x).set_and_get_current_sve_vector_length = x.set_and_get_current_sve_vector_length := rfl
theorem compiler2APhase_keeps_set_and_get_current_sve_vector_length (x : St) : (compiler2APhase x).set_and_get_current_sve_vector_length = x.set_and_get_current_sve_vector_length := rfl
theorem lsePhase_keeps_set_and_get_current_sve_vector_length (x : St) : (lsePhase x).set_and_get_current_sve_vector_length = x.set_and_get_current_sve_vector_length := rfl
theorem crcPhase_keeps_set_and_get_current_sve_vector_length (x : St) : (crcPhase x).set_and_get_current_sve_vector_length = x.set_and_get_current_sve_vector_length := rfl
theorem stxrQuirk_keeps_set_and_get_current_sve_vector_length (x : St) : (stxrQuirk x).set_and_get_current_sve_vector_length = x.set_and_get_current_sve_vector_length := rfl
theorem armSignumQuirk_keeps_set_and_get_current_sve_vector_length (x : St) : (armSignumQuirk x).set_and_get_current_sve_vector_length = x.set_and_get_current_sve_vector_length := rfl
theorem neoverseQuirk_keeps_set_and_get_current_sve_vector_length (x : St) : (neoverseQuirk x).set_and_get_current_sve_vector_length = x.set_and_get_current_sve_vector_length := rfl
theorem a73Quirk_keeps_set_and_get_current_sve_vector_length (x : St) : (a73Quirk x).set_and_get_current_sve_vector_length = x.set_and_get_current_sve_vector_length := rfl
theorem a53Quirk_keeps_set_and_get_current_sve_vector_length (x : St) : (a53Quirk x).set_and_get_current_sve_vector_length = x.set_and_get_current_sve_vector_length := rfl
theorem hisiliconQuirk_keeps_set_and_get_current_sve_vector_length (x : St) : (hisiliconQuirk x).set_and_get_current_sve_vector_length = x.set_and_get_current_sve_vector_length := rfl
theorem thunderX2Quirk_keeps_set_and_get_current_sve_vector_length (x : St) : (thunderX2Quirk x).set_and_get_current_sve_vector_length = x.set_and_get_current_sve_vector_length := rfl
theorem prefetchPhase_keeps_set_and_get_current_sve_vector_length (x : St) : (prefetchPhase x).set_and_get_current_sve_vector_length = x.set_and_get_current_sve_vector_length := rfl
theorem dcpopPhase_keeps_set_and_get_current_sve_vector_length (x : St) : (dcpopPhase x).set_and_get_current_sve_vector_length = x.set_and_get_current_sve_vector_length := rfl
theorem emagQuirk_keeps_set_and_get_current_sve_vector_length (x : St) : (emagQuirk x).set_and_get_current_sve_vector_length = x.set_and_get_current_sve_vector_length := rfl
theorem ampereQuirk_keeps_set_and_get_current_sve_vector_length (x : St) : (ampereQuirk x).set_and_get_current_sve_vector_length = x.set_and_get_current_sve_vector_length := rfl
theorem optoAlignPhase_keeps_set_and_get_current_sve_vector_length (x : St) : (optoAlignPhase x).set_and_get_current_sve_vector_length = x.set_and_get_current_sve_vector_length := rfl
theorem virtPhase_keeps_set_and_get_current_sve_vector_length (x : St) : (virtPhase x).set_and_get_current_sve_vector_length = x.set_and_get_current_sve_vector_length := rfl
theorem prefetchPhase_keeps_features (x : St) : (prefetchPhase x).features = x.features := rfl
theorem dcpopPhase_keeps_features (x : St) : (dcpopPhase x).features = x.features := rfl
theorem emagQuirk_keeps_features (x : St) : (emagQuirk x).features = x.features := rfl
theorem ampereQuirk_keeps_features (x : St) : (ampereQuirk x).features = x.features := rfl
theorem lsePhase_keeps_features (x : St) : (lsePhase x).features = x.features := rfl
theorem crcPhase_keeps_features (x : St) : (crcPhase x).features = x.features := rfl
theorem hisiliconQuirk_keeps_features (x : St) : (hisiliconQuirk x).features = x.features := rfl
theorem thunderX2Quirk_keeps_features (x : St) : (thunderX2Quirk x).features = x.features := rfl
theorem a73Quirk_keeps_features (x : St) : (a73Quirk x).features = x.features := rfl
theorem neoverseQuirk_keeps_features (x : St) : (neoverseQuirk x).features = x.features := rfl
theorem armSignumQuirk_keeps_features (x : St) : (armSignumQuirk x).features = x.features := rfl
theorem miscIntrinsicsPhase_keeps_features (x : St) : (miscIntrinsicsPhase x).features = x.features := rfl
theorem aesPhase_keeps_features (x : St) : (aesPhase x).features = x.features := rfl
theorem shaPhase_keeps_features (x : St) : (shaPhase x).features = x.features := rfl
theorem shaResetPhase_keeps_features (x : St) : (shaResetPhase x).features = x.features := rfl
theorem ghashBase64Phase_keeps_features (x : St) : (ghashBase64Phase x).features = x.features := rfl
theorem zvaPhase_keeps_features (x : St) : (zvaPhase x).features = x.features := rfl

/-- The AES section does not touch the vector-length oracle. -/
theorem aesPhase_keeps_set_and_get_current_sve_vector_length (x : St) :
    (aesPhase x).set_and_get_current_sve_vector_length = x.set_and_get_current_sve_vector_length := rfl

/-- Or-ing in bits disjoint from a mask does not change a masked read. -/
theorem or_and_eq_zero (a b m : Nat) (hb : b &&& m = 0) : (a ||| b) &&& m = a &&& m := by
  apply Nat.eq_of_testBit_eq
  intro i
  have hbi := congrArg (fun n => Nat.testBit n i) hb
  simp only [Nat.testBit_land, Nat.zero_testBit] at hbi
  simp only [Nat.testBit_land, Nat.testBit_lor]
  cases hb1 : b.testBit i <;> cases hm1 : m.testBit i <;> simp_all

/-- `CPU_STXR_PREFETCH` does not overlap the AES bit. -/
theorem stxr_and_aes (a : Nat) : (a ||| CPU_STXR_PREFETCH) &&& CPU_AES = a &&& CPU_AES :=
  or_and_eq_zero a _ _ (by decide)

/-- `CPU_A53MAC` does not overlap the AES bit. -/
theorem a53mac_and_aes (a : Nat) : (a ||| CPU_A53MAC) &&& CPU_AES = a &&& CPU_AES :=
  or_and_eq_zero a _ _ (by decide)

/-- The vendor rules between the probe and the AES section can only add the
A53MAC / STXR_PREFETCH bits, which do not affect the AES bit. -/
theorem aesInput_features_aes (s : St) :
    (aesInput s).features &&& CPU_AES = s.features &&& CPU_AES := by
  unfold aesInput
  simp only [lsePhase_keeps_features, crcPhase_keeps_features]
  simp only [stxrQuirk, armSignumQuirk_keeps_features, neoverseQuirk_keeps_features,
    a73Quirk_keeps_features, a53Quirk, hisiliconQuirk_keeps_features, thunderX2Quirk_keeps_features]
  split_ifs <;> simp [stxr_and_aes, a53mac_and_aes, hisiliconQuirk_keeps_features,
    thunderX2Quirk_keeps_features, a73Quirk_keeps_features]

/-- The sections after the AES section inside `pureB` do not touch the AES
knobs. -/
theorem pureB_aes_proj (s : St) :
    (pureB s).UseAES = (aesPhase (aesInput s)).UseAES ∧
    (pureB s).UseAESIntrinsics = (aesPhase (aesInput s)).UseAESIntrinsics := by
  unfold pureB aesInput
  constructor
  · simp only [compiler2APhase_keeps_UseAES, unalignedPopcntPhase_keeps_UseAES,
      sveLengthPhase_keeps_UseAES, sveTierPhase_keeps_UseAES, zvaPhase_keeps_UseAES,
      ghashBase64Phase_keeps_UseAES, shaResetPhase_keeps_UseAES, shaPhase_keeps_UseAES,
      miscIntrinsicsPhase_keeps_UseAES]
  · simp only [compiler2APhase_keeps_UseAESIntrinsics, unalignedPopcntPhase_keeps_UseAESIntrinsics,
      sveLengthPhase_keeps_UseAESIntrinsics, sveTierPhase_keeps_UseAESIntrinsics,
      zvaPhase_keeps_UseAESIntrinsics, ghashBase64Phase_keeps_UseAESIntrinsics,
      shaResetPhase_keeps_UseAESIntrinsics, shaPhase_keeps_UseAESIntrinsics,
      miscIntrinsicsPhase_keeps_UseAESIntrinsics]

/-- The sections before the AES section do not touch the AES knobs. -/
theorem aesInput_flags (s : St) :
    (aesInput s).UseAES = s.UseAES ∧ (aesInput s).UseAESIntrinsics = s.UseAESIntrinsics := by
  unfold aesInput
  constructor
  · simp only [lsePhase_keeps_UseAES, crcPhase_keeps_UseAES, stxrQuirk_keeps_UseAES,
      armSignumQuirk_keeps_UseAES, neoverseQuirk_keeps_UseAES, a73Quirk_keeps_UseAES,
      a53Quirk_keeps_UseAES, hisiliconQuirk_keeps_UseAES, thunderX2Quirk_keeps_UseAES]
  · simp only [lsePhase_keeps_UseAESIntrinsics, crcPhase_keeps_UseAESIntrinsics,
      stxrQuirk_keeps_UseAESIntrinsics, armSignumQuirk_keeps_UseAESIntrinsics,
      neoverseQuirk_keeps_UseAESIntrinsics, a73Quirk_keeps_UseAESIntrinsics,
      a53Quirk_keeps_UseAESIntrinsics, hisiliconQuirk_keeps_UseAESIntrinsics,
      thunderX2Quirk_keeps_UseAESIntrinsics]

/-- The prefix `pureA` does not touch the AES knobs, the feature set, or
the vector-length oracle. -/
theorem pureA_flags (s : St) :
    (pureA s).UseAES = s.UseAES ∧ (pureA s).UseAESIntrinsics = s.UseAESIntrinsics ∧
    (pureA s).features = s.features ∧
    (pureA s).set_and_get_current_sve_vector_length = s.set_and_get_current_sve_vector_length := by
  unfold pureA
  refine ⟨?_, ?_, ?_, ?_⟩
  · simp only [ampereQuirk_keeps_UseAES, emagQuirk_keeps_UseAES, dcpopPhase_keeps_UseAES,
      prefetchPhase_keeps_UseAES]
  · simp only [ampereQuirk_keeps_UseAESIntrinsics, emagQuirk_keeps_UseAESIntrinsics,
      dcpopPhase_keeps_UseAESIntrinsics, prefetchPhase_keeps_UseAESIntrinsics]
  · simp only [ampereQuirk_keeps_features, emagQuirk_keeps_features, dcpopPhase_keeps_features,
      prefetchPhase_keeps_features]
  · simp only [ampereQuirk_keeps_set_and_get_current_sve_vector_length,
      emagQuirk_keeps_set_and_get_current_sve_vector_length,
      dcpopPhase_keeps_set_and_get_current_sve_vector_length,
      prefetchPhase_keeps_set_and_get_current_sve_vector_length]

/-- The sections after the SHA master reset inside `pureB` do not touch the
SHA knobs. -/
theorem pureB_sha_proj (s : St) :
    (pureB s).UseSHA = (shaResetPhase (shaResetInput s)).UseSHA ∧
    (pureB s).UseSHA1Intrinsics = (shaResetPhase (shaResetInput s)).UseSHA1Intrinsics ∧
    (pureB s).UseSHA256Intrinsics = (shaResetPhase (shaResetInput s)).UseSHA256Intrinsics ∧
    (pureB s).UseSHA3Intrinsics = (shaResetPhase (shaResetInput s)).UseSHA3Intrinsics ∧
    (pureB s).UseSHA512Intrinsics = (shaResetPhase (shaResetInput s)).UseSHA512Intrinsics := by
  unfold pureB shaResetInput aesInput
  refine ⟨?_, ?_, ?_, ?_, ?_⟩ <;>
    simp only [compiler2APhase_keeps_UseSHA, unalignedPopcntPhase_keeps_UseSHA,
      sveLengthPhase_keeps_UseSHA, sveTierPhase_keeps_UseSHA, zvaPhase_keeps_UseSHA,
      ghashBase64Phase_keeps_UseSHA,
      compiler2APhase_keeps_UseSHA1Intrinsics, unalignedPopcntPhase_keeps_UseSHA1Intrinsics,
      sveLengthPhase_keeps_UseSHA1Intrinsics, sveTierPhase_keeps_UseSHA1Intrinsics,
      zvaPhase_keeps_UseSHA1Intrinsics, ghashBase64Phase_keeps_UseSHA1Intrinsics,
      compiler2APhase_keeps_UseSHA256Intrinsics, unalignedPopcntPhase_keeps_UseSHA256Intrinsics,
      sveLengthPhase_keeps_UseSHA256Intrinsics, sveTierPhase_keeps_UseSHA256Intrinsics,
      zvaPhase_keeps_UseSHA256Intrinsics, ghashBase64Phase_keeps_UseSHA256Intrinsics,
      compiler2APhase_keeps_UseSHA3Intrinsics, unalignedPopcntPhase_keeps_UseSHA3Intrinsics,
      sveLengthPhase_keeps_UseSHA3Intrinsics, sveTierPhase_keeps_UseSHA3Intrinsics,
      zvaPhase_keeps_UseSHA3Intrinsics, ghashBase64Phase_keeps_UseSHA3Intrinsics,
      compiler2APhase_keeps_UseSHA512Intrinsics, unalignedPopcntPhase_keeps_UseSHA512Intrinsics,
      sveLengthPhase_keeps_UseSHA512Intrinsics, sveTierPhase_keeps_UseSHA512Intrinsics,
      zvaPhase_keeps_UseSHA512Intrinsics, ghashBase64Phase_keeps_UseSHA512Intrinsics]

/-- The sections after the SVE length validation inside `pureB` do not
touch `UseSVE` or the recorded length. -/
theorem pureB_sve_proj (s : St) :
    (pureB s).UseSVE = (sveLengthPhase (sveLengthInput s)).UseSVE ∧
    (pureB s).initial_sve_vector_length =
      (sveLengthPhase (sveLengthInput s)).initial_sve_vector_length := by
  unfold pureB sveLengthInput shaResetInput aesInput
  constructor
  · simp only [compiler2APhase_keeps_UseSVE, unalignedPopcntPhase_keeps_UseSVE]
  · simp only [compiler2APhase_keeps_initial_sve_vector_length,
      unalignedPopcntPhase_keeps_initial_sve_vector_length]

/-- No section changes the vector-length oracle. -/
theorem pureB_oracle (s : St) :
    (pureB s).set_and_get_current_sve_vector_length = s.set_and_get_current_sve_vector_length := by
  unfold pureB
  simp only [compiler2APhase_keeps_set_and_get_current_sve_vector_length,
    unalignedPopcntPhase_keeps_set_and_get_current_sve_vector_length,
    sveLengthPhase_keeps_set_and_get_current_sve_vector_length,
    sveTierPhase_keeps_set_and_get_current_sve_vector_length,
    zvaPhase_keeps_set_and_get_current_sve_vector_length,
    ghashBase64Phase_keeps_set_and_get_current_sve_vector_length,
    shaResetPhase_keeps_set_and_get_current_sve_vector_length,
    shaPhase_keeps_set_and_get_current_sve_vector_length,
    miscIntrinsicsPhase_keeps_set_and_get_current_sve_vector_length,
    aesPhase_keeps_set_and_get_current_sve_vector_length,
    lsePhase_keeps_set_and_get_current_sve_vector_length,
    crcPhase_keeps_set_and_get_current_sve_vector_length,
    stxrQuirk_keeps_set_and_get_current_sve_vector_length,
    armSignumQuirk_keeps_set_and_get_current_sve_vector_length,
    neoverseQuirk_keeps_set_and_get_current_sve_vector_length,
    a73Quirk_keeps_set_and_get_current_sve_vector_length,
    a53Quirk_keeps_set_and_get_current_sve_vector_length,
    hisiliconQuirk_keeps_set_and_get_current_sve_vector_length,
    thunderX2Quirk_keeps_set_and_get_current_sve_vector_length]

/-- The COMPILER2 SVE MaxVectorSize section preserves the vector-length
invariant, assuming the granted lengths respect the hardware contract. -/
theorem sveMaxVector_ok_sve (a b : St) (h : sveMaxVectorPhase a = .ok b)
    (hOr : ∀ n, 0 ≤ a.set_and_get_current_sve_vector_length n →
      is_power_of_2 (a.set_and_get_current_sve_vector_length n) = true ∧
      a.set_and_get_current_sve_vector_length n % sve_vl_min = 0)
    (hInv : 0 < a.UseSVE.value →
      is_power_of_2 a.initial_sve_vector_length = true ∧
      a.initial_sve_vector_length % sve_vl_min = 0) :
    0 < b.UseSVE.value →
      is_power_of_2 b.initial_sve_vector_length = true ∧
      b.initial_sve_vector_length % sve_vl_min = 0 := by
  unfold sveMaxVectorPhase at h
  dsimp only at h
  split_ifs at h <;>
    first
    | exact Except.noConfusion h
    | (rw [Except.ok.injEq] at h; subst h;
       first
       | exact hInv
       | (rename_i hc5 hc6; intro _; exact hOr _ (not_lt.mp hc5))
       | (intro hp; exact absurd hp (by simp [setV])))

/-- C10: after a non-aborting run, enabled AES intrinsics imply the enabled
`UseAES` master; and with the AES bit present, explicitly enabled intrinsics
over an explicitly disabled master force `UseAES` to true and emit the
conflict warning (lines 284-287). -/
theorem c10_aes_intrinsics_imply_master (inp st : St) (h : vmInit inp = .ok st) :
    (st.UseAESIntrinsics.value = true → st.UseAES.value = true) ∧
    (inp.features &&& CPU_AES ≠ 0 → inp.UseAESIntrinsics.value = true →
      inp.UseAES.isDefault = false → inp.UseAES.value = false →
      st.UseAES.value = true ∧ "UseAESIntrinsics enabled, but UseAES not, enabling" ∈ st.warnings) := by
  obtain ⟨s1, s2, s3, s4, h1, h2, h3, h4, hst⟩ := vmInit_ok_decomp inp st h
  subst hst
  obtain ⟨hA1, hI1, -, hF1, -, -, -, -, -, -, -, -, -, -⟩ := thunderX_ok_frame _ s1 h1
  obtain ⟨hA2, hI2, -, -, -, hw2⟩ := sveMaxVector_ok_frame _ s2 h2
  obtain ⟨hA3, hI3, -, -, -, -, -, hw3⟩ := neon_ok_frame s2 s3 h3
  obtain ⟨hA4, hI4, -, -, -, hw4⟩ := spinWait_ok_frame _ s4 h4
  have eA : (virtPhase s4).UseAES = (aesPhase (aesInput s1)).UseAES := by
    rw [virtPhase_keeps_UseAES, hA4, optoAlignPhase_keeps_UseAES, hA3, hA2, (pureB_aes_proj s1).1]
  have eI : (virtPhase s4).UseAESIntrinsics = (aesPhase (aesInput s1)).UseAESIntrinsics := by
    rw [virtPhase_keeps_UseAESIntrinsics, hI4, optoAlignPhase_keeps_UseAESIntrinsics, hI3, hI2,
      (pureB_aes_proj s1).2]
  constructor
  · intro hv
    rw [eA]
    exact aes_implies_master (aesInput s1) (by rw [← eI]; exact hv)
  · intro hf hv hd hval
    have ef : (aesInput s1).features &&& CPU_AES ≠ 0 := by
      rw [aesInput_features_aes, hF1, (pureA_flags inp).2.2.1]; exact hf
    have ev : (aesInput s1).UseAESIntrinsics.value = true := by
      rw [(aesInput_flags s1).2, hI1, (pureA_flags inp).2.1]; exact hv
    have ed : (aesInput s1).UseAES.isDefault = false := by
      rw [(aesInput_flags s1).1, hA1, (pureA_flags inp).1]; exact hd
    have eval2 : (aesInput s1).UseAES.value = false := by
      rw [(aesInput_flags s1).1, hA1, (pureA_flags inp).1]; exact hval
    obtain ⟨hforce, hwarn⟩ := aes_conflict_forces_master (aesInput s1) ef ev eval2 ed
    refine ⟨by rw [eA]; exact hforce, ?_⟩
    have w2 := hw2 _ (warn_mono_pureB_after_aes s1 _ hwarn)
    have w3 := hw3 _ w2
    have w4 := hw4 _ (show _ ∈ (optoAlignPhase s3).warnings from w3)
    exact w4

/-- C10 witness at a concrete run: AES bit present, intrinsics explicitly
on, master explicitly off. -/
theorem c10_aes_witness :
    (((vmInit c10In).toOption.getD c10In).UseAESIntrinsics.value = true →
      ((vmInit c10In).toOption.getD c10In).UseAES.value = true) ∧
    (c10In.features &&& CPU_AES ≠ 0 → c10In.UseAESIntrinsics.value = true →
      c10In.UseAES.isDefault = false → c10In.UseAES.value = false →
      ((vmInit c10In).toOption.getD c10In).UseAES.value = true ∧
      "UseAESIntrinsics enabled, but UseAES not, enabling" ∈
        ((vmInit c10In).toOption.getD c10In).warnings) :=
  c10_aes_intrinsics_imply_master c10In ((vmInit c10In).toOption.getD c10In) rfl

/-- C3 (counterexample): with the AES bit present, `-XX:+UseAES
-XX:-UseAESIntrinsics -XX:-UseAESCTRIntrinsics` completes with the `UseAES`
master true while every AES sub knob is false: the no-dangling-master
property fails for the AES family. -/
theorem c3_aes_dangling_master_counterexample :
    (vmInit c3CounterIn).toOption.map
      (fun s => (s.UseAES.value, s.UseAESIntrinsics.value, s.UseAESCTRIntrinsics.value)) =
      some (true, false, false) := by decide

/-- C3 (amended): the no-dangling-master invariant holds for the SHA family
(lines 374-376): after a non-aborting run, a true `UseSHA` implies some SHA
intrinsic is on, and all-false SHA intrinsics force `UseSHA` false. -/
theorem c3_sha_no_dangling_master (inp st : St) (h : vmInit inp = .ok st) :
    (st.UseSHA.value = true →
      (st.UseSHA1Intrinsics.value || st.UseSHA256Intrinsics.value ||
       st.UseSHA3Intrinsics.value || st.UseSHA512Intrinsics.value) = true) ∧
    ((st.UseSHA1Intrinsics.value = false ∧ st.UseSHA256Intrinsics.value = false ∧
      st.UseSHA3Intrinsics.value = false ∧ st.UseSHA512Intrinsics.value = false) →
      st.UseSHA.value = false) := by
  obtain ⟨s1, s2, s3, s4, h1, h2, h3, h4, hst⟩ := vmInit_ok_decomp inp st h
  subst hst
  obtain ⟨-, -, -, -, hk2, -⟩ := sveMaxVector_ok_frame _ s2 h2
  obtain ⟨-, -, -, -, -, -, hk3, -⟩ := neon_ok_frame s2 s3 h3
  obtain ⟨-, -, -, -, hk4, -⟩ := spinWait_ok_frame _ s4 h4
  have eS : (virtPhase s4).UseSHA = (shaResetPhase (shaResetInput s1)).UseSHA := by
    have w4 : s4.UseSHA = (optoAlignPhase s3).UseSHA := by
      simpa [getKnob] using hk4 StickyKnob.UseSHA
    have w3 : s3.UseSHA = s2.UseSHA := by simpa [getKnob] using hk3 StickyKnob.UseSHA
    have w2 : s2.UseSHA = (pureB s1).UseSHA := by simpa [getKnob] using hk2 StickyKnob.UseSHA
    rw [virtPhase_keeps_UseSHA, w4, optoAlignPhase_keeps_UseSHA, w3, w2, (pureB_sha_proj s1).1]
  have e1 : (virtPhase s4).UseSHA1Intrinsics = (shaResetPhase (shaResetInput s1)).UseSHA1Intrinsics := by
    have w4 : s4.UseSHA1Intrinsics = (optoAlignPhase s3).UseSHA1Intrinsics := by
      simpa [getKnob] using hk4 StickyKnob.UseSHA1Intrinsics
    have w3 : s3.UseSHA1Intrinsics = s2.UseSHA1Intrinsics := by
      simpa [getKnob] using hk3 StickyKnob.UseSHA1Intrinsics
    have w2 : s2.UseSHA1Intrinsics = (pureB s1).UseSHA1Intrinsics := by
      simpa [getKnob] using hk2 StickyKnob.UseSHA1Intrinsics
    rw [virtPhase_keeps_UseSHA1Intrinsics, w4, optoAlignPhase_keeps_UseSHA1Intrinsics, w3, w2,
      (pureB_sha_proj s1).2.1]
  have e2 : (virtPhase s4).UseSHA256Intrinsics = (shaResetPhase (shaResetInput s1)).UseSHA256Intrinsics := by
    have w4 : s4.UseSHA256Intrinsics = (optoAlignPhase s3).UseSHA256Intrinsics := by
      simpa [getKnob] using hk4 StickyKnob.UseSHA256Intrinsics
    have w3 : s3.UseSHA256Intrinsics = s2.UseSHA256Intrinsics := by
      simpa [getKnob] using hk3 StickyKnob.UseSHA256Intrinsics
    have w2 : s2.UseSHA256Intrinsics = (pureB s1).UseSHA256Intrinsics := by
      simpa [getKnob] using hk2 StickyKnob.UseSHA256Intrinsics
    rw [virtPhase_keeps_UseSHA256Intrinsics, w4, optoAlignPhase_keeps_UseSHA256Intrinsics, w3, w2,
      (pureB_sha_proj s1).2.2.1]
  have e3 : (virtPhase s4).UseSHA3Intrinsics = (shaResetPhase (shaResetInput s1)).UseSHA3Intrinsics := by
    have w4 : s4.UseSHA3Intrinsics = (optoAlignPhase s3).UseSHA3Intrinsics := by
      simpa [getKnob] using hk4 StickyKnob.UseSHA3Intrinsics
    have w3 : s3.UseSHA3Intrinsics = s2.UseSHA3Intrinsics := by
      simpa [getKnob] using hk3 StickyKnob.UseSHA3Intrinsics
    have w2 : s2.UseSHA3Intrinsics = (pureB s1).UseSHA3Intrinsics := by
      simpa [getKnob] using hk2 StickyKnob.UseSHA3Intrinsics
    rw [virtPhase_keeps_UseSHA3Intrinsics, w4, optoAlignPhase_keeps_UseSHA3Intrinsics, w3, w2,
      (pureB_sha_proj s1).2.2.2.1]
  have e4 : (virtPhase s4).UseSHA512Intrinsics = (shaResetPhase (shaResetInput s1)).UseSHA512Intrinsics := by
    have w4 : s4.UseSHA512Intrinsics = (optoAlignPhase s3).UseSHA512Intrinsics := by
      simpa [getKnob] using hk4 StickyKnob.UseSHA512Intrinsics
    have w3 : s3.UseSHA512Intrinsics = s2.UseSHA512Intrinsics := by
      simpa [getKnob] using hk3 StickyKnob.UseSHA512Intrinsics
    have w2 : s2.UseSHA512Intrinsics = (pureB s1).UseSHA512Intrinsics := by
      simpa [getKnob] using hk2 StickyKnob.UseSHA512Intrinsics
    rw [virtPhase_keeps_UseSHA512Intrinsics, w4, optoAlignPhase_keeps_UseSHA512Intrinsics, w3, w2,
      (pureB_sha_proj s1).2.2.2.2]
  have main : (virtPhase s4).UseSHA.value = true →
      ((virtPhase s4).UseSHA1Intrinsics.value || (virtPhase s4).UseSHA256Intrinsics.value ||
       (virtPhase s4).UseSHA3Intrinsics.value || (virtPhase s4).UseSHA512Intrinsics.value) = true := by
    intro hv
    rw [e1, e2, e3, e4]
    exact sha_reset_invariant (shaResetInput s1) (by rw [← eS]; exact hv)
  refine ⟨main, ?_⟩
  rintro ⟨ha, hb, hc, hd⟩
  cases hu : (virtPhase s4).UseSHA.value
  · rfl
  · have hdisj := main hu
    rw [ha, hb, hc, hd] at hdisj
    simp at hdisj

/-- Witness for `c3_sha_no_dangling_master` at a concrete run. -/
theorem c3_sha_witness :
    ((((vmInit baseSt).toOption.getD baseSt).UseSHA.value = true →
      (((vmInit baseSt).toOption.getD baseSt).UseSHA1Intrinsics.value ||
       ((vmInit baseSt).toOption.getD baseSt).UseSHA256Intrinsics.value ||
       ((vmInit baseSt).toOption.getD baseSt).UseSHA3Intrinsics.value ||
       ((vmInit baseSt).toOption.getD baseSt).UseSHA512Intrinsics.value) = true) ∧
    ((((vmInit baseSt).toOption.getD baseSt).UseSHA1Intrinsics.value = false ∧
      ((vmInit baseSt).toOption.getD baseSt).UseSHA256Intrinsics.value = false ∧
      ((vmInit baseSt).toOption.getD baseSt).UseSHA3Intrinsics.value = false ∧
      ((vmInit baseSt).toOption.getD baseSt).UseSHA512Intrinsics.value = false) →
      ((vmInit baseSt).toOption.getD baseSt).UseSHA.value = false)) :=
  c3_sha_no_dangling_master baseSt ((vmInit baseSt).toOption.getD baseSt) rfl

/-- C5 (counterexample): with SVE enabled and an operator-set
`MaxVectorSize=32`, a granted length of 48 from the write-then-read-back call
is adopted as `_initial_sve_vector_length` without re-validation: the run
completes with `UseSVE = 1` and a non-power-of-two recorded length. -/
theorem c5_unvalidated_grant_counterexample :
    (vmInit c5CounterIn).toOption.map
      (fun s => (s.UseSVE.value, s.initial_sve_vector_length,
        is_power_of_2 s.initial_sve_vector_length)) = some (1, 48, false) := by decide

/-- C5 (amended): under the hardware contract that any nonnegative granted
length is itself a power of two and a multiple of `sve_vl_min`, every
non-aborting run that leaves SVE enabled records a vector length that is a
power of two and a multiple of the minimum. -/
theorem c5_sve_length_invariant (inp st : St)
    (hOr : ∀ n, 0 ≤ inp.set_and_get_current_sve_vector_length n →
      is_power_of_2 (inp.set_and_get_current_sve_vector_length n) = true ∧
      inp.set_and_get_current_sve_vector_length n % sve_vl_min = 0)
    (h : vmInit inp = .ok st) (hsve : 0 < st.UseSVE.value) :
    is_power_of_2 st.initial_sve_vector_length = true ∧
    st.initial_sve_vector_length % sve_vl_min = 0 := by
  obtain ⟨s1, s2, s3, s4, h1, h2, h3, h4, hst⟩ := vmInit_ok_decomp inp st h
  subst hst
  obtain ⟨-, -, -, -, -, -, -, -, -, hg1, -, -, -, -⟩ := thunderX_ok_frame _ s1 h1
  obtain ⟨-, -, -, -, hv3, hl3, -, -⟩ := neon_ok_frame s2 s3 h3
  obtain ⟨-, -, hv4, hl4, -, -⟩ := spinWait_ok_frame _ s4 h4
  have hOr2 : ∀ n, 0 ≤ (pureB s1).set_and_get_current_sve_vector_length n →
      is_power_of_2 ((pureB s1).set_and_get_current_sve_vector_length n) = true ∧
      (pureB s1).set_and_get_current_sve_vector_length n % sve_vl_min = 0 := by
    rw [pureB_oracle, hg1, (pureA_flags inp).2.2.2]
    exact hOr
  have hInvB : 0 < (pureB s1).UseSVE.value →
      is_power_of_2 (pureB s1).initial_sve_vector_length = true ∧
      (pureB s1).initial_sve_vector_length % sve_vl_min = 0 := by
    rw [(pureB_sve_proj s1).1, (pureB_sve_proj s1).2]
    exact sve_length_invariant (sveLengthInput s1)
  have hInv2 := sveMaxVector_ok_sve (pureB s1) s2 h2 hOr2 hInvB
  have ev : (virtPhase s4).UseSVE = s2.UseSVE := by
    rw [virtPhase_keeps_UseSVE, hv4, optoAlignPhase_keeps_UseSVE, hv3]
  have el : (virtPhase s4).initial_sve_vector_length = s2.initial_sve_vector_length := by
    rw [virtPhase_keeps_initial_sve_vector_length, hl4,
      optoAlignPhase_keeps_initial_sve_vector_length, hl3]
  rw [el]
  exact hInv2 (by rw [← ev]; exact hsve)

/-- Witness for `c5_sve_length_invariant` at a concrete run whose grant
oracle always returns 32. -/
theorem c5_sve_witness :
    is_power_of_2 ((vmInit c5WitnessIn).toOption.getD c5WitnessIn).initial_sve_vector_length = true ∧
    ((vmInit c5WitnessIn).toOption.getD c5WitnessIn).initial_sve_vector_length % sve_vl_min = 0 :=
  c5_sve_length_invariant c5WitnessIn ((vmInit c5WitnessIn).toOption.getD c5WitnessIn)
    (fun n _ => (by decide : is_power_of_2 (32 : Int) = true ∧ (32 : Int) % sve_vl_min = 0)) rfl (by decide)

/-- C7: without the AES feature bit, an operator-requested
`UseAESIntrinsics` is recovered from, not fatal: after the AES section both
`UseAES` and `UseAESIntrinsics` are false and the advisory is emitted; a
full run on such a configuration completes without aborting with the same
final state. -/
theorem c7_aes_unsupported_recovered (y : St) (hf : y.features &&& CPU_AES = 0)
    (hv : y.UseAESIntrinsics.value = true) :
    ((aesPhase y).UseAES.value = false ∧ (aesPhase y).UseAESIntrinsics.value = false ∧
      "AES intrinsics are not available on this CPU" ∈ (aesPhase y).warnings) ∧
    (vmInit c7In).toOption.map (fun s => (s.UseAES.value, s.UseAESIntrinsics.value,
      s.warnings.contains "AES intrinsics are not available on this CPU")) =
      some (false, false, true) :=
  ⟨aes_absent_disables y hf hv, by decide⟩

/-- Witness for `c7_aes_unsupported_recovered` at the concrete scenario
input. -/
theorem c7_aes_witness :
    (((aesPhase c7In).UseAES.value = false ∧ (aesPhase c7In).UseAESIntrinsics.value = false ∧
      "AES intrinsics are not available on this CPU" ∈ (aesPhase c7In).warnings) ∧
    (vmInit c7In).toOption.map (fun s => (s.UseAES.value, s.UseAESIntrinsics.value,
      s.warnings.contains "AES intrinsics are not available on this CPU")) =
      some (false, false, true)) :=
  c7_aes_unsupported_recovered c7In rfl rfl
-- Additional untouched-field projection lemmas (one source layer each),
-- used to transport facts through the section composition.
theorem prefetchPhase_keeps_UseSVE (x : St) : (prefetchPhase x).UseSVE = x.UseSVE := rfl
theorem dcpopPhase_keeps_UseSVE (x : St) : (dcpopPhase x).UseSVE = x.UseSVE := rfl
theorem emagQuirk_keeps_UseSVE (x : St) : (emagQuirk x).UseSVE = x.UseSVE := rfl
theorem ampereQuirk_keeps_UseSVE (x : St) : (ampereQuirk x).UseSVE = x.UseSVE := rfl
theorem thunderX2Quirk_keeps_UseSVE (x : St) : (thunderX2Quirk x).UseSVE = x.UseSVE := rfl
theorem hisiliconQuirk_keeps_UseSVE (x : St) : (hisiliconQuirk x).UseSVE = x.UseSVE := rfl
theorem a53Quirk_keeps_UseSVE (x : St) : (a53Quirk x).UseSVE = x.UseSVE := rfl
theorem a73Quirk_keeps_UseSVE (x : St) : (a73Quirk x).UseSVE = x.UseSVE := rfl
theorem neoverseQuirk_keeps_UseSVE (x : St) : (neoverseQuirk x).UseSVE = x.UseSVE := rfl
theorem armSignumQuirk_keeps_UseSVE (x : St) : (armSignumQuirk x).UseSVE = x.UseSVE := rfl
theorem stxrQuirk_keeps_UseSVE (x : St) : (stxrQuirk x).UseSVE = x.UseSVE := rfl
theorem crcPhase_keeps_UseSVE (x : St) : (crcPhase x).UseSVE = x.UseSVE := rfl
theorem lsePhase_keeps_UseSVE (x : St) : (lsePhase x).UseSVE = x.UseSVE := rfl
theorem aesPhase_keeps_UseSVE (x : St) : (aesPhase x).UseSVE = x.UseSVE := rfl
theorem miscIntrinsicsPhase_keeps_UseSVE (x : St) : (miscIntrinsicsPhase x).UseSVE = x.UseSVE := rfl
theorem shaPhase_keeps_UseSVE (x : St) : (shaPhase x).UseSVE = x.UseSVE := rfl
theorem shaResetPhase_keeps_UseSVE (x : St) : (shaResetPhase x).UseSVE = x.UseSVE := rfl
theorem ghashBase64Phase_keeps_UseSVE (x : St) : (ghashBase64Phase x).UseSVE = x.UseSVE := rfl
theorem zvaPhase_keeps_UseSVE (x : St) : (zvaPhase x).UseSVE = x.UseSVE := rfl
theorem prefetchPhase_keeps_MaxVectorSize (x : St) : (prefetchPhase x).MaxVectorSize = x.MaxVectorSize := rfl
theorem dcpopPhase_keeps_MaxVectorSize (x : St) : (dcpopPhase x).MaxVectorSize = x.MaxVectorSize := rfl
theorem emagQuirk_keeps_MaxVectorSize (x : St) : (emagQuirk x).MaxVectorSize = x.MaxVectorSize := rfl
theorem ampereQuirk_keeps_MaxVectorSize (x : St) : (ampereQuirk x).MaxVectorSize = x.MaxVectorSize := rfl
theorem thunderX2Quirk_keeps_MaxVectorSize (x : St) : (thunderX2Quirk x).MaxVectorSize = x.MaxVectorSize := rfl
theorem hisiliconQuirk_keeps_MaxVectorSize (x : St) : (hisiliconQuirk x).MaxVectorSize = x.MaxVectorSize := rfl
theorem a53Quirk_keeps_MaxVectorSize (x : St) : (a53Quirk x).MaxVectorSize = x.MaxVectorSize := rfl
theorem a73Quirk_keeps_MaxVectorSize (x : St) : (a73Quirk x).MaxVectorSize = x.MaxVectorSize := rfl
theorem neoverseQuirk_keeps_MaxVectorSize (x : St) : (neoverseQuirk x).MaxVectorSize = x.MaxVectorSize := rfl
theorem armSignumQuirk_keeps_MaxVectorSize (x : St) : (armSignumQuirk x).MaxVectorSize = x.MaxVectorSize := rfl
theorem stxrQuirk_keeps_MaxVectorSize (x : St) : (stxrQuirk x).MaxVectorSize = x.MaxVectorSize := rfl
theorem crcPhase_keeps_MaxVectorSize (x : St) : (crcPhase x).MaxVectorSize = x.MaxVectorSize := rfl
theorem lsePhase_keeps_MaxVectorSize (x : St) : (lsePhase x).MaxVectorSize = x.MaxVectorSize := rfl
theorem aesPhase_keeps_MaxVectorSize (x : St) : (aesPhase x).MaxVectorSize = x.MaxVectorSize := rfl
theorem miscIntrinsicsPhase_keeps_MaxVectorSize (x : St) : (miscIntrinsicsPhase x).MaxVectorSize = x.MaxVectorSize := rfl
theorem shaPhase_keeps_MaxVectorSize (x : St) : (shaPhase x).MaxVectorSize = x.MaxVectorSize := rfl
theorem shaResetPhase_keeps_MaxVectorSize (x : St) : (shaResetPhase x).MaxVectorSize = x.MaxVectorSize := rfl
theorem ghashBase64Phase_keeps_MaxVectorSize (x : St) : (ghashBase64Phase x).MaxVectorSize = x.MaxVectorSize := rfl
theorem zvaPhase_keeps_MaxVectorSize (x : St) : (zvaPhase x).MaxVectorSize = x.MaxVectorSize := rfl
theorem sveTierPhase_keeps_MaxVectorSize (x : St) : (sveTierPhase x).MaxVectorSize = x.MaxVectorSize := rfl
theorem sveLengthPhase_keeps_MaxVectorSize (x : St) : (sveLengthPhase x).MaxVectorSize = x.MaxVectorSize := rfl
theorem prefetchPhase_keeps_OnSpinWaitInst (x : St) : (prefetchPhase x).OnSpinWaitInst = x.OnSpinWaitInst := rfl
theorem dcpopPhase_keeps_OnSpinWaitInst (x : St) : (dcpopPhase x).OnSpinWaitInst = x.OnSpinWaitInst := rfl
theorem emagQuirk_keeps_OnSpinWaitInst (x : St) : (emagQuirk x).OnSpinWaitInst = x.OnSpinWaitInst := rfl
theorem thunderX2Quirk_keeps_OnSpinWaitInst (x : St) : (thunderX2Quirk x).OnSpinWaitInst = x.OnSpinWaitInst := rfl
theorem hisiliconQuirk_keeps_OnSpinWaitInst (x : St) : (hisiliconQuirk x).OnSpinWaitInst = x.OnSpinWaitInst := rfl
theorem a53Quirk_keeps_OnSpinWaitInst (x : St) : (a53Quirk x).OnSpinWaitInst = x.OnSpinWaitInst := rfl
theorem a73Quirk_keeps_OnSpinWaitInst (x : St) : (a73Quirk x).OnSpinWaitInst = x.OnSpinWaitInst := rfl
theorem armSignumQuirk_keeps_OnSpinWaitInst (x : St) : (armSignumQuirk x).OnSpinWaitInst = x.OnSpinWaitInst := rfl
theorem stxrQuirk_keeps_OnSpinWaitInst (x : St) : (stxrQuirk x).OnSpinWaitInst = x.OnSpinWaitInst := rfl
theorem crcPhase_keeps_OnSpinWaitInst (x : St) : (crcPhase x).OnSpinWaitInst = x.OnSpinWaitInst := rfl
theorem lsePhase_keeps_OnSpinWaitInst (x : St) : (lsePhase x).OnSpinWaitInst = x.OnSpinWaitInst := rfl
theorem aesPhase_keeps_OnSpinWaitInst (x : St) : (aesPhase x).OnSpinWaitInst = x.OnSpinWaitInst := rfl
theorem miscIntrinsicsPhase_keeps_OnSpinWaitInst (x : St) : (miscIntrinsicsPhase x).OnSpinWaitInst = x.OnSpinWaitInst := rfl
theorem shaPhase_keeps_OnSpinWaitInst (x : St) : (shaPhase x).OnSpinWaitInst = x.OnSpinWaitInst := rfl
theorem shaResetPhase_keeps_OnSpinWaitInst (x : St) : (shaResetPhase x).OnSpinWaitInst = x.OnSpinWaitInst := rfl
theorem ghashBase64Phase_keeps_OnSpinWaitInst (x : St) : (ghashBase64Phase x).OnSpinWaitInst = x.OnSpinWaitInst := rfl
theorem zvaPhase_keeps_OnSpinWaitInst (x : St) : (zvaPhase x).OnSpinWaitInst = x.OnSpinWaitInst := rfl
theorem sveTierPhase_keeps_OnSpinWaitInst (x : St) : (sveTierPhase x).OnSpinWaitInst = x.OnSpinWaitInst := rfl
theorem sveLengthPhase_keeps_OnSpinWaitInst (x : St) : (sveLengthPhase x).OnSpinWaitInst = x.OnSpinWaitInst := rfl
theorem unalignedPopcntPhase_keeps_OnSpinWaitInst (x : St) : (unalignedPopcntPhase x).OnSpinWaitInst = x.OnSpinWaitInst := rfl
theorem compiler2APhase_keeps_OnSpinWaitInst (x : St) : (compiler2APhase x).OnSpinWaitInst = x.OnSpinWaitInst := rfl
theorem optoAlignPhase_keeps_OnSpinWaitInst (x : St) : (optoAlignPhase x).OnSpinWaitInst = x.OnSpinWaitInst := rfl
theorem prefetchPhase_keeps_OnSpinWaitInstCount (x : St) : (prefetchPhase x).OnSpinWaitInstCount = x.OnSpinWaitInstCount := rfl
theorem dcpopPhase_keeps_OnSpinWaitInstCount (x : St) : (dcpopPhase x).OnSpinWaitInstCount = x.OnSpinWaitInstCount := rfl
theorem emagQuirk_keeps_OnSpinWaitInstCount (x : St) : (emagQuirk x).OnSpinWaitInstCount = x.OnSpinWaitInstCount := rfl
theorem thunderX2Quirk_keeps_OnSpinWaitInstCount (x : St) : (thunderX2Quirk x).OnSpinWaitInstCount = x.OnSpinWaitInstCount := rfl
theorem hisiliconQuirk_keeps_OnSpinWaitInstCount (x : St) : (hisiliconQuirk x).OnSpinWaitInstCount = x.OnSpinWaitInstCount := rfl
theorem a53Quirk_keeps_OnSpinWaitInstCount (x : St) : (a53Quirk x).OnSpinWaitInstCount = x.OnSpinWaitInstCount := rfl
theorem a73Quirk_keeps_OnSpinWaitInstCount (x : St) : (a73Quirk x).OnSpinWaitInstCount = x.OnSpinWaitInstCount := rfl
theorem armSignumQuirk_keeps_OnSpinWaitInstCount (x : St) : (armSignumQuirk x).OnSpinWaitInstCount = x.OnSpinWaitInstCount := rfl
theorem stxrQuirk_keeps_OnSpinWaitInstCount (x : St) : (stxrQuirk x).OnSpinWaitInstCount = x.OnSpinWaitInstCount := rfl
theorem crcPhase_keeps_OnSpinWaitInstCount (x : St) : (crcPhase x).OnSpinWaitInstCount = x.OnSpinWaitInstCount := rfl
theorem lsePhase_keeps_OnSpinWaitInstCount (x : St) : (lsePhase x).OnSpinWaitInstCount = x.OnSpinWaitInstCount := rfl
theorem aesPhase_keeps_OnSpinWaitInstCount (x : St) : (aesPhase x).OnSpinWaitInstCount = x.OnSpinWaitInstCount := rfl
theorem miscIntrinsicsPhase_keeps_OnSpinWaitInstCount (x : St) : (miscIntrinsicsPhase x).OnSpinWaitInstCount = x.OnSpinWaitInstCount := rfl
theorem shaPhase_keeps_OnSpinWaitInstCount (x : St) : (shaPhase x).OnSpinWaitInstCount = x.OnSpinWaitInstCount := rfl
theorem shaResetPhase_keeps_OnSpinWaitInstCount (x : St) : (shaResetPhase x).OnSpinWaitInstCount = x.OnSpinWaitInstCount := rfl
theorem ghashBase64Phase_keeps_OnSpinWaitInstCount (x : St) : (ghashBase64Phase x).OnSpinWaitInstCount = x.OnSpinWaitInstCount := rfl
theorem zvaPhase_keeps_OnSpinWaitInstCount (x : St) : (zvaPhase x).OnSpinWaitInstCount = x.OnSpinWaitInstCount := rfl
theorem sveTierPhase_keeps_OnSpinWaitInstCount (x : St) : (sveTierPhase x).OnSpinWaitInstCount = x.OnSpinWaitInstCount := rfl
theorem sveLengthPhase_keeps_OnSpinWaitInstCount (x : St) : (sveLengthPhase x).OnSpinWaitInstCount = x.OnSpinWaitInstCount := rfl
theorem unalignedPopcntPhase_keeps_OnSpinWaitInstCount (x : St) : (unalignedPopcntPhase x).OnSpinWaitInstCount = x.OnSpinWaitInstCount := rfl
theorem compiler2APhase_keeps_OnSpinWaitInstCount (x : St) : (compiler2APhase x).OnSpinWaitInstCount = x.OnSpinWaitInstCount := rfl
theorem optoAlignPhase_keeps_OnSpinWaitInstCount (x : St) : (optoAlignPhase x).OnSpinWaitInstCount = x.OnSpinWaitInstCount := rfl
theorem prefetchPhase_keeps_cpu (x : St) : (prefetchPhase x).cpu = x.cpu := rfl
theorem prefetchPhase_keeps_model (x : St) : (prefetchPhase x).model = x.model := rfl
theorem prefetchPhase_keeps_variant (x : St) : (prefetchPhase x).variant = x.variant := rfl
theorem dcpopPhase_keeps_cpu (x : St) : (dcpopPhase x).cpu = x.cpu := rfl
theorem dcpopPhase_keeps_model (x : St) : (dcpopPhase x).model = x.model := rfl
theorem dcpopPhase_keeps_variant (x : St) : (dcpopPhase x).variant = x.variant := rfl
theorem emagQuirk_keeps_cpu (x : St) : (emagQuirk x).cpu = x.cpu := rfl
theorem emagQuirk_keeps_model (x : St) : (emagQuirk x).model = x.model := rfl
theorem emagQuirk_keeps_variant (x : St) : (emagQuirk x).variant = x.variant := rfl
theorem ampereQuirk_keeps_cpu (x : St) : (ampereQuirk x).cpu = x.cpu := rfl
theorem ampereQuirk_keeps_model (x : St) : (ampereQuirk x).model = x.model := rfl
theorem ampereQuirk_keeps_variant (x : St) : (ampereQuirk x).variant = x.variant := rfl

/-- `CPU_STXR_PREFETCH` does not overlap the SVE bit. -/
theorem stxr_and_sve (a : Nat) : (a ||| CPU_STXR_PREFETCH) &&& CPU_SVE = a &&& CPU_SVE :=
  or_and_eq_zero a _ _ (by decide)

/-- `CPU_A53MAC` does not overlap the SVE bit. -/
theorem a53mac_and_sve (a : Nat) : (a ||| CPU_A53MAC) &&& CPU_SVE = a &&& CPU_SVE :=
  or_and_eq_zero a _ _ (by decide)

/-- The A57 rule can only add the STXR_PREFETCH bit, which does not affect a
read of the SVE bit. -/
theorem stxrQuirk_and_sve (x : St) :
    (stxrQuirk x).features &&& CPU_SVE = x.features &&& CPU_SVE := by
  simp only [stxrQuirk]
  split
  · exact stxr_and_sve x.features
  · rfl

/-- The A53 rule can only add the A53MAC bit, which does not affect a read
of the SVE bit. -/
theorem a53Quirk_and_sve (x : St) :
    (a53Quirk x).features &&& CPU_SVE = x.features &&& CPU_SVE := by
  simp only [a53Quirk]
  split
  · exact a53mac_and_sve x.features
  · rfl

/-- With a variant other than 0x3 the eMAG rule is inert. -/
theorem emag_off (x : St) (h : x.variant ≠ 0x3) : emagQuirk x = x := by
  unfold emagQuirk
  dsimp only
  rw [if_neg (fun hc => h hc.1.2.2), if_neg (fun hc => h hc.1.2.2),
    if_neg (fun hc => h hc.1.2.2)]

/-- With an implementer other than Ampere the Ampere-1 rule is inert. -/
theorem ampere_off (x : St) (h : x.cpu ≠ CPU_AMPERE) : ampereQuirk x = x := by
  unfold ampereQuirk
  dsimp only
  rw [if_neg (fun hc => h hc.1.1), if_neg (fun hc => h hc.1.1),
    if_neg (fun hc => h hc.1.1), if_neg (fun hc => h hc.1.1)]

/-- The ThunderX rule aborts only on the exact pre-release identity, and the
abort carries the input state untouched. -/
theorem thunderX_error_cond (a : St) (e : Fatal) (h : thunderXQuirk a = .error e) :
    a.cpu = CPU_CAVIUM ∧ a.model = 0xA1 ∧ a.variant = 0 ∧
      e = ⟨"Pre-release hardware no longer supported.", a⟩ := by
  unfold thunderXQuirk at h
  dsimp only at h
  by_cases h0 : (a.cpu = CPU_CAVIUM ∧ a.model = 0xA1) ∧ a.variant = 0
  · rw [if_pos h0] at h
    rw [Except.error.injEq] at h
    exact ⟨h0.1.1, h0.1.2, h0.2, h.symm⟩
  · rw [if_neg h0] at h
    exact Except.noConfusion h

/-- With SVE off, the COMPILER2 SVE MaxVectorSize section is inert. -/
theorem sveMaxVector_inactive (a : St) (h : ¬ 0 < a.UseSVE.value) :
    sveMaxVectorPhase a = .ok a := by
  unfold sveMaxVectorPhase
  rw [if_neg h]

/-- With SVE off and a defaulted `MaxVectorSize`, the NEON section sets the
vector size to 16 and cannot abort. -/
theorem neon_default (a : St) (h0 : a.UseSVE.value = 0) (hd : a.MaxVectorSize.isDefault = true) :
    neonPhase a = .ok { a with MaxVectorSize := setV a.MaxVectorSize 16 } := by
  unfold neonPhase
  rw [if_pos h0]
  dsimp only
  rw [if_neg (by simp [hd])]

/-- With the SVE feature bit absent and the knob not positive, the SVE tier
section is inert on `UseSVE`. -/
theorem sveTier_inactive (x : St) (hf : x.features &&& CPU_SVE = 0)
    (hv : ¬ 0 < x.UseSVE.value) : (sveTierPhase x).UseSVE = x.UseSVE := by
  simp only [sveTierPhase]
  rw [if_neg (not_not_intro hf), if_neg hv]

/-- With `UseSVE` not positive, the SVE length validation is inert on
`UseSVE`. -/
theorem sveLength_inactive (x : St) (hv : ¬ 0 < x.UseSVE.value) :
    (sveLengthPhase x).UseSVE = x.UseSVE := by
  simp only [sveLengthPhase]
  rw [if_neg (fun hc => hv hc.1)]

/-- The Ampere-1 rule either leaves the spin-wait strategy alone or installs
"isb"; it never changes the count knob origin. -/
theorem ampere_spin (x : St) :
    ((ampereQuirk x).OnSpinWaitInst.value = x.OnSpinWaitInst.value ∨
      (ampereQuirk x).OnSpinWaitInst.value = "isb") ∧
    (ampereQuirk x).OnSpinWaitInstCount.isDefault = x.OnSpinWaitInstCount.isDefault := by
  constructor
  · simp only [ampereQuirk]
    split
    · exact Or.inr rfl
    · exact Or.inl rfl
  · simp only [ampereQuirk]
    split <;> rfl

/-- The Neoverse rule either leaves the spin-wait strategy alone or installs
"isb"; it never changes the count knob origin. -/
theorem neoverse_spin (x : St) :
    ((neoverseQuirk x).OnSpinWaitInst.value = x.OnSpinWaitInst.value ∨
      (neoverseQuirk x).OnSpinWaitInst.value = "isb") ∧
    (neoverseQuirk x).OnSpinWaitInstCount.isDefault = x.OnSpinWaitInstCount.isDefault := by
  constructor
  · simp only [neoverseQuirk]
    split
    · exact Or.inr rfl
    · exact Or.inl rfl
  · simp only [neoverseQuirk]
    split <;> rfl

/-- A spin-wait strategy of "none" or "isb" with a defaulted count always
parses. -/
theorem spin_ok_of (st : St)
    (hi : st.OnSpinWaitInst.value = "none" ∨ st.OnSpinWaitInst.value = "isb")
    (hc : st.OnSpinWaitInstCount.isDefault = true) :
    spinWaitPhase st = .ok { st with spin_wait :=
      if st.OnSpinWaitInst.value = "isb" then ⟨.ISB, st.OnSpinWaitInstCount.value⟩ else {} } := by
  unfold spinWaitPhase get_spin_wait_desc
  rcases hi with hi | hi <;> simp [hi, hc]

theorem unalignedPopcntPhase_keeps_MaxVectorSize (x : St) : (unalignedPopcntPhase x).MaxVectorSize = x.MaxVectorSize := rfl
theorem compiler2APhase_keeps_MaxVectorSize (x : St) : (compiler2APhase x).MaxVectorSize = x.MaxVectorSize := rfl

/-- The prefix `pureA` does not touch the CPU identity registers. -/
theorem pureA_ids (s : St) :
    (pureA s).cpu = s.cpu ∧ (pureA s).model = s.model ∧ (pureA s).variant = s.variant := by
  unfold pureA
  refine ⟨?_, ?_, ?_⟩ <;>
    simp only [ampereQuirk_keeps_cpu, emagQuirk_keeps_cpu, dcpopPhase_keeps_cpu,
      prefetchPhase_keeps_cpu, ampereQuirk_keeps_model, emagQuirk_keeps_model,
      dcpopPhase_keeps_model, prefetchPhase_keeps_model, ampereQuirk_keeps_variant,
      emagQuirk_keeps_variant, dcpopPhase_keeps_variant, prefetchPhase_keeps_variant]

/-- The prefix `pureA` does not touch `UseSVE` or `MaxVectorSize`. -/
theorem pureA_vec (s : St) :
    (pureA s).UseSVE = s.UseSVE ∧ (pureA s).MaxVectorSize = s.MaxVectorSize := by
  unfold pureA
  constructor <;>
    simp only [ampereQuirk_keeps_UseSVE, emagQuirk_keeps_UseSVE, dcpopPhase_keeps_UseSVE,
      prefetchPhase_keeps_UseSVE, ampereQuirk_keeps_MaxVectorSize, emagQuirk_keeps_MaxVectorSize,
      dcpopPhase_keeps_MaxVectorSize, prefetchPhase_keeps_MaxVectorSize]

/-- Through the prefix `pureA`, the spin-wait strategy is preserved or set to
"isb", and the count origin is preserved. -/
theorem pureA_spin (s : St) :
    ((pureA s).OnSpinWaitInst.value = s.OnSpinWaitInst.value ∨
      (pureA s).OnSpinWaitInst.value = "isb") ∧
    (pureA s).OnSpinWaitInstCount.isDefault = s.OnSpinWaitInstCount.isDefault := by
  unfold pureA
  have h := ampere_spin (emagQuirk (dcpopPhase (prefetchPhase s)))
  simp only [emagQuirk_keeps_OnSpinWaitInst, dcpopPhase_keeps_OnSpinWaitInst,
    prefetchPhase_keeps_OnSpinWaitInst, emagQuirk_keeps_OnSpinWaitInstCount,
    dcpopPhase_keeps_OnSpinWaitInstCount, prefetchPhase_keeps_OnSpinWaitInstCount] at h
  exact h

/-- The middle `pureB` does not touch `MaxVectorSize`. -/
theorem pureB_keeps_MaxVectorSize (s : St) : (pureB s).MaxVectorSize = s.MaxVectorSize := by
  unfold pureB
  simp only [compiler2APhase_keeps_MaxVectorSize, unalignedPopcntPhase_keeps_MaxVectorSize,
    sveLengthPhase_keeps_MaxVectorSize, sveTierPhase_keeps_MaxVectorSize,
    zvaPhase_keeps_MaxVectorSize, ghashBase64Phase_keeps_MaxVectorSize,
    shaResetPhase_keeps_MaxVectorSize, shaPhase_keeps_MaxVectorSize,
    miscIntrinsicsPhase_keeps_MaxVectorSize, aesPhase_keeps_MaxVectorSize,
    lsePhase_keeps_MaxVectorSize, crcPhase_keeps_MaxVectorSize, stxrQuirk_keeps_MaxVectorSize,
    armSignumQuirk_keeps_MaxVectorSize, neoverseQuirk_keeps_MaxVectorSize,
    a73Quirk_keeps_MaxVectorSize, a53Quirk_keeps_MaxVectorSize,
    hisiliconQuirk_keeps_MaxVectorSize, thunderX2Quirk_keeps_MaxVectorSize]

/-- On a state without the SVE feature bit and with `UseSVE` at zero, the
middle `pureB` leaves `UseSVE` at zero. -/
theorem pureB_sve_zero (s : St) (hf : s.features &&& CPU_SVE = 0) (hv : s.UseSVE.value = 0) :
    (pureB s).UseSVE.value = 0 := by
  have hfX : (zvaPhase (ghashBase64Phase (shaResetPhase (shaResetInput s)))).features
      &&& CPU_SVE = 0 := by
    unfold shaResetInput aesInput
    simp only [zvaPhase_keeps_features, ghashBase64Phase_keeps_features,
      shaResetPhase_keeps_features, shaPhase_keeps_features, miscIntrinsicsPhase_keeps_features,
      aesPhase_keeps_features, lsePhase_keeps_features, crcPhase_keeps_features]
    rw [stxrQuirk_and_sve, armSignumQuirk_keeps_features, neoverseQuirk_keeps_features,
      a73Quirk_keeps_features, a53Quirk_and_sve]
    simp only [hisiliconQuirk_keeps_features, thunderX2Quirk_keeps_features]
    exact hf
  have hvX : (zvaPhase (ghashBase64Phase (shaResetPhase (shaResetInput s)))).UseSVE.value = 0 := by
    unfold shaResetInput aesInput
    simp only [zvaPhase_keeps_UseSVE, ghashBase64Phase_keeps_UseSVE, shaResetPhase_keeps_UseSVE,
      shaPhase_keeps_UseSVE, miscIntrinsicsPhase_keeps_UseSVE, aesPhase_keeps_UseSVE,
      lsePhase_keeps_UseSVE, crcPhase_keeps_UseSVE, stxrQuirk_keeps_UseSVE,
      armSignumQuirk_keeps_UseSVE, neoverseQuirk_keeps_UseSVE, a73Quirk_keeps_UseSVE,
      a53Quirk_keeps_UseSVE, hisiliconQuirk_keeps_UseSVE, thunderX2Quirk_keeps_UseSVE]
    exact hv
  have ht := sveTier_inactive (zvaPhase (ghashBase64Phase (shaResetPhase (shaResetInput s))))
    hfX (by simp [hvX])
  have hl := sveLength_inactive
    (sveTierPhase (zvaPhase (ghashBase64Phase (shaResetPhase (shaResetInput s)))))
    (by simp [ht, hvX])
  rw [(pureB_sve_proj s).1]
  unfold sveLengthInput
  rw [hl, ht, hvX]

/-- Through the middle `pureB`, the spin-wait strategy is preserved or set to
"isb", and the count origin is preserved. -/
theorem pureB_spin (s : St) :
    ((pureB s).OnSpinWaitInst.value = s.OnSpinWaitInst.value ∨
      (pureB s).OnSpinWaitInst.value = "isb") ∧
    (pureB s).OnSpinWaitInstCount.isDefault = s.OnSpinWaitInstCount.isDefault := by
  unfold pureB
  have h := neoverse_spin (a73Quirk (a53Quirk (hisiliconQuirk (thunderX2Quirk s))))
  simp only [a73Quirk_keeps_OnSpinWaitInst, a53Quirk_keeps_OnSpinWaitInst,
    hisiliconQuirk_keeps_OnSpinWaitInst, thunderX2Quirk_keeps_OnSpinWaitInst,
    a73Quirk_keeps_OnSpinWaitInstCount, a53Quirk_keeps_OnSpinWaitInstCount,
    hisiliconQuirk_keeps_OnSpinWaitInstCount, thunderX2Quirk_keeps_OnSpinWaitInstCount] at h
  simp only [compiler2APhase_keeps_OnSpinWaitInst, unalignedPopcntPhase_keeps_OnSpinWaitInst,
    sveLengthPhase_keeps_OnSpinWaitInst, sveTierPhase_keeps_OnSpinWaitInst,
    zvaPhase_keeps_OnSpinWaitInst, ghashBase64Phase_keeps_OnSpinWaitInst,
    shaResetPhase_keeps_OnSpinWaitInst, shaPhase_keeps_OnSpinWaitInst,
    miscIntrinsicsPhase_keeps_OnSpinWaitInst, aesPhase_keeps_OnSpinWaitInst,
    lsePhase_keeps_OnSpinWaitInst, crcPhase_keeps_OnSpinWaitInst, stxrQuirk_keeps_OnSpinWaitInst,
    armSignumQuirk_keeps_OnSpinWaitInst,
    compiler2APhase_keeps_OnSpinWaitInstCount, unalignedPopcntPhase_keeps_OnSpinWaitInstCount,
    sveLengthPhase_keeps_OnSpinWaitInstCount, sveTierPhase_keeps_OnSpinWaitInstCount,
    zvaPhase_keeps_OnSpinWaitInstCount, ghashBase64Phase_keeps_OnSpinWaitInstCount,
    shaResetPhase_keeps_OnSpinWaitInstCount, shaPhase_keeps_OnSpinWaitInstCount,
    miscIntrinsicsPhase_keeps_OnSpinWaitInstCount, aesPhase_keeps_OnSpinWaitInstCount,
    lsePhase_keeps_OnSpinWaitInstCount, crcPhase_keeps_OnSpinWaitInstCount,
    stxrQuirk_keeps_OnSpinWaitInstCount, armSignumQuirk_keeps_OnSpinWaitInstCount]
  exact h

/-- C4: for vendor Cavium (0x43) with model 0xA1 and variant 0, initialization
aborts fatally with the pre-release message before any of the ThunderX rule's
knob overrides (`AvoidUnalignedAccesses`, `UseSIMDForMemoryOps`,
`UseSIMDForArrayEquals`) is applied — the state carried by the abort still
holds the input values of all three knobs; and for every other vendor/model
pair, a variant of zero on an otherwise benign configuration does not abort. -/
theorem c4_thunderx_prerelease :
    (∀ inp : St, inp.cpu = CPU_CAVIUM → inp.model = 0xA1 → inp.variant = 0 →
      ∃ e : Fatal, vmInit inp = .error e ∧
        e.msg = "Pre-release hardware no longer supported." ∧
        e.st.AvoidUnalignedAccesses = inp.AvoidUnalignedAccesses ∧
        e.st.UseSIMDForMemoryOps = inp.UseSIMDForMemoryOps ∧
        e.st.UseSIMDForArrayEquals = inp.UseSIMDForArrayEquals) ∧
    (∀ cpu model : Int, ¬(cpu = CPU_CAVIUM ∧ model = 0xA1) →
      (vmInit (benignIn cpu model)).isOk = true) := by
  constructor
  · intro inp hc hm hv
    have hD : pureA inp = dcpopPhase (prefetchPhase inp) := by
      unfold pureA
      rw [emag_off _ (by
        simp only [dcpopPhase_keeps_variant, prefetchPhase_keeps_variant, hv]
        decide)]
      rw [ampere_off _ (by
        simp only [dcpopPhase_keeps_cpu, prefetchPhase_keeps_cpu, hc]
        decide)]
    have hT : thunderXQuirk (pureA inp) =
        .error ⟨"Pre-release hardware no longer supported.", dcpopPhase (prefetchPhase inp)⟩ := by
      rw [hD]
      unfold thunderXQuirk
      dsimp only
      rw [if_pos ⟨⟨by
        simp only [dcpopPhase_keeps_cpu, prefetchPhase_keeps_cpu]
        exact hc, by
        simp only [dcpopPhase_keeps_model, prefetchPhase_keeps_model]
        exact hm⟩, by
        simp only [dcpopPhase_keeps_variant, prefetchPhase_keeps_variant]
        exact hv⟩]
    refine ⟨⟨"Pre-release hardware no longer supported.", dcpopPhase (prefetchPhase inp)⟩,
      ?_, rfl, rfl, rfl, rfl⟩
    unfold vmInit
    rw [hT]
  · intro cpu model h
    cases h1 : thunderXQuirk (pureA (benignIn cpu model)) with
    | error e =>
      exfalso
      obtain ⟨hc, hm, -, -⟩ := thunderX_error_cond _ _ h1
      rw [(pureA_ids (benignIn cpu model)).1] at hc
      rw [(pureA_ids (benignIn cpu model)).2.1] at hm
      exact h ⟨hc, hm⟩
    | ok s1 =>
      obtain ⟨-, -, -, hFeat, -, hSVE, hMVS, -, -, -, hInst, hCnt, -, -⟩ :=
        thunderX_ok_frame _ _ h1
      have hfs1 : s1.features &&& CPU_SVE = 0 := by
        have hb : (benignIn cpu model).features = 0 := rfl
        rw [hFeat, (pureA_flags (benignIn cpu model)).2.2.1, hb]
        rfl
      have hvs1 : s1.UseSVE.value = 0 := by
        rw [hSVE, (pureA_vec (benignIn cpu model)).1]
        rfl
      have hmvs1 : s1.MaxVectorSize.isDefault = true := by
        rw [hMVS, (pureA_vec (benignIn cpu model)).2]
        rfl
      have hspin1 : s1.OnSpinWaitInst.value = "none" ∨ s1.OnSpinWaitInst.value = "isb" := by
        rw [hInst]
        rcases (pureA_spin (benignIn cpu model)).1 with hp | hp
        · exact Or.inl hp
        · exact Or.inr hp
      have hcnt1 : s1.OnSpinWaitInstCount.isDefault = true := by
        rw [hCnt, (pureA_spin (benignIn cpu model)).2]
        rfl
      have hsve2 : (pureB s1).UseSVE.value = 0 := pureB_sve_zero s1 hfs1 hvs1
      have h2 : sveMaxVectorPhase (pureB s1) = .ok (pureB s1) :=
        sveMaxVector_inactive _ (by simp [hsve2])
      have hmvs2 : (pureB s1).MaxVectorSize.isDefault = true := by
        rw [pureB_keeps_MaxVectorSize]
        exact hmvs1
      have h3 : neonPhase (pureB s1) =
          .ok { pureB s1 with MaxVectorSize := setV (pureB s1).MaxVectorSize 16 } :=
        neon_default _ hsve2 hmvs2
      have hspinB : (pureB s1).OnSpinWaitInst.value = "none" ∨
          (pureB s1).OnSpinWaitInst.value = "isb" := by
        rcases (pureB_spin s1).1 with hp | hp
        · rw [hp]
          exact hspin1
        · exact Or.inr hp
      have hcntB : (pureB s1).OnSpinWaitInstCount.isDefault = true := by
        rw [(pureB_spin s1).2]
        exact hcnt1
      have hspinF : (optoAlignPhase { pureB s1 with
            MaxVectorSize := setV (pureB s1).MaxVectorSize 16 }).OnSpinWaitInst.value = "none" ∨
          (optoAlignPhase { pureB s1 with
            MaxVectorSize := setV (pureB s1).MaxVectorSize 16 }).OnSpinWaitInst.value = "isb" := by
        rw [optoAlignPhase_keeps_OnSpinWaitInst]
        exact hspinB
      have hcntF : (optoAlignPhase { pureB s1 with
          MaxVectorSize := setV (pureB s1).MaxVectorSize 16 }).OnSpinWaitInstCount.isDefault
            = true := by
        rw [optoAlignPhase_keeps_OnSpinWaitInstCount]
        exact hcntB
      have h4 := spin_ok_of _ hspinF hcntF
      unfold vmInit
      rw [h1]
      simp only []
      rw [h2]
      simp only []
      rw [h3]
      simp only []
      rw [h4]
      rfl

/-- C4 witness: the abort half at the concrete pre-release identity
(`c4In` = Cavium / 0xA1 / variant 0), and the benign half at the concrete
Arm / Cortex-A57 identity. -/
theorem c4_witness :
    (∃ e : Fatal, vmInit c4In = .error e ∧
      e.msg = "Pre-release hardware no longer supported." ∧
      e.st.AvoidUnalignedAccesses = c4In.AvoidUnalignedAccesses ∧
      e.st.UseSIMDForMemoryOps = c4In.UseSIMDForMemoryOps ∧
      e.st.UseSIMDForArrayEquals = c4In.UseSIMDForArrayEquals) ∧
    (vmInit (benignIn CPU_ARM 0xd07)).isOk = true :=
  ⟨c4_thunderx_prerelease.1 c4In rfl rfl rfl,
   c4_thunderx_prerelease.2 CPU_ARM 0xd07 (by decide)⟩
-- Sticky-preservation of each pure section: origin bits are kept, and an
-- explicitly-false knob is never flipped to true.
theorem sp_prefetchPhase : stickyPres prefetchPhase := by
  intro s k
  cases k <;>
    exact ⟨by simp only [getKnob, prefetchPhase, setV] <;> (repeat' split) <;> rfl,
           fun hd hv => by
             simp only [getKnob] at hd hv ⊢
             simp only [prefetchPhase, setV]
             (repeat' split) <;> simp_all⟩

theorem sp_dcpopPhase : stickyPres dcpopPhase := by
  intro s k
  cases k <;>
    exact ⟨by simp only [getKnob, dcpopPhase, setV] <;> (repeat' split) <;> rfl,
           fun hd hv => by
             simp only [getKnob] at hd hv ⊢
             simp only [dcpopPhase, setV]
             (repeat' split) <;> simp_all⟩

theorem sp_emagQuirk : stickyPres emagQuirk := by
  intro s k
  cases k <;>
    exact ⟨by simp only [getKnob, emagQuirk, setV] <;> (repeat' split) <;> rfl,
           fun hd hv => by
             simp only [getKnob] at hd hv ⊢
             simp only [emagQuirk, setV]
             (repeat' split) <;> simp_all⟩

theorem sp_ampereQuirk : stickyPres ampereQuirk := by
  intro s k
  cases k <;>
    exact ⟨by simp only [getKnob, ampereQuirk, setV] <;> (repeat' split) <;> rfl,
           fun hd hv => by
             simp only [getKnob] at hd hv ⊢
             simp only [ampereQuirk, setV]
             (repeat' split) <;> simp_all⟩

theorem sp_thunderX2Quirk : stickyPres thunderX2Quirk := by
  intro s k
  cases k <;>
    exact ⟨by simp only [getKnob, thunderX2Quirk, setV] <;> (repeat' split) <;> rfl,
           fun hd hv => by
             simp only [getKnob] at hd hv ⊢
             simp only [thunderX2Quirk, setV]
             (repeat' split) <;> simp_all⟩

theorem sp_hisiliconQuirk : stickyPres hisiliconQuirk := by
  intro s k
  cases k <;>
    exact ⟨by simp only [getKnob, hisiliconQuirk, setV] <;> (repeat' split) <;> rfl,
           fun hd hv => by
             simp only [getKnob] at hd hv ⊢
             simp only [hisiliconQuirk, setV]
             (repeat' split) <;> simp_all⟩

theorem sp_a53Quirk : stickyPres a53Quirk := by
  intro s k
  cases k <;>
    exact ⟨by simp only [getKnob, a53Quirk, setV] <;> (repeat' split) <;> rfl,
           fun hd hv => by
             simp only [getKnob] at hd hv ⊢
             simp only [a53Quirk, setV]
             (repeat' split) <;> simp_all⟩

theorem sp_a73Quirk : stickyPres a73Quirk := by
  intro s k
  cases k <;>
    exact ⟨by simp only [getKnob, a73Quirk, setV] <;> (repeat' split) <;> rfl,
           fun hd hv => by
             simp only [getKnob] at hd hv ⊢
             simp only [a73Quirk, setV]
             (repeat' split) <;> simp_all⟩

theorem sp_neoverseQuirk : stickyPres neoverseQuirk := by
  intro s k
  cases k <;>
    exact ⟨by simp only [getKnob, neoverseQuirk, setV] <;> (repeat' split) <;> rfl,
           fun hd hv => by
             simp only [getKnob] at hd hv ⊢
             simp only [neoverseQuirk, setV]
             (repeat' split) <;> simp_all⟩

theorem sp_armSignumQuirk : stickyPres armSignumQuirk := by
  intro s k
  cases k <;>
    exact ⟨by simp only [getKnob, armSignumQuirk, setV] <;> (repeat' split) <;> rfl,
           fun hd hv => by
             simp only [getKnob] at hd hv ⊢
             simp only [armSignumQuirk, setV]
             (repeat' split) <;> simp_all⟩

theorem sp_stxrQuirk : stickyPres stxrQuirk := by
  intro s k
  cases k <;>
    exact ⟨by simp only [getKnob, stxrQuirk, setV] <;> (repeat' split) <;> rfl,
           fun hd hv => by
             simp only [getKnob] at hd hv ⊢
             simp only [stxrQuirk, setV]
             (repeat' split) <;> simp_all⟩

theorem sp_crcPhase : stickyPres crcPhase := by
  intro s k
  cases k <;>
    exact ⟨by simp only [getKnob, crcPhase, setV] <;> (repeat' split) <;> rfl,
           fun hd hv => by
             simp only [getKnob] at hd hv ⊢
             simp only [crcPhase, setV]
             (repeat' split) <;> simp_all⟩

theorem sp_lsePhase : stickyPres lsePhase := by
  intro s k
  cases k <;>
    exact ⟨by simp only [getKnob, lsePhase, setV] <;> (repeat' split) <;> rfl,
           fun hd hv => by
             simp only [getKnob] at hd hv ⊢
             simp only [lsePhase, setV]
             (repeat' split) <;> simp_all⟩

theorem sp_aesPhase : stickyPres aesPhase := by
  intro s k
  cases k <;>
    exact ⟨by simp only [getKnob, aesPhase, setV] <;> (repeat' split) <;> rfl,
           fun hd hv => by
             simp only [getKnob] at hd hv ⊢
             simp only [aesPhase, setV]
             (repeat' split) <;> simp_all⟩

theorem sp_miscIntrinsicsPhase : stickyPres miscIntrinsicsPhase := by
  intro s k
  cases k <;>
    exact ⟨by simp only [getKnob, miscIntrinsicsPhase, setV] <;> (repeat' split) <;> rfl,
           fun hd hv => by
             simp only [getKnob] at hd hv ⊢
             simp only [miscIntrinsicsPhase, setV]
             (repeat' split) <;> simp_all⟩

theorem sp_shaPhase : stickyPres shaPhase := by
  intro s k
  cases k <;>
    exact ⟨by simp only [getKnob, shaPhase, setV] <;> (repeat' split) <;> rfl,
           fun hd hv => by
             simp only [getKnob] at hd hv ⊢
             simp only [shaPhase, setV]
             (repeat' split) <;> simp_all⟩

theorem sp_shaResetPhase : stickyPres shaResetPhase := by
  intro s k
  cases k <;>
    exact ⟨by simp only [getKnob, shaResetPhase, setV] <;> (repeat' split) <;> rfl,
           fun hd hv => by
             simp only [getKnob] at hd hv ⊢
             simp only [shaResetPhase, setV]
             (repeat' split) <;> simp_all⟩

theorem sp_ghashBase64Phase : stickyPres ghashBase64Phase := by
  intro s k
  cases k <;>
    exact ⟨by simp only [getKnob, ghashBase64Phase, setV] <;> (repeat' split) <;> rfl,
           fun hd hv => by
             simp only [getKnob] at hd hv ⊢
             simp only [ghashBase64Phase, setV]
             (repeat' split) <;> simp_all⟩

theorem sp_zvaPhase : stickyPres zvaPhase := by
  intro s k
  cases k <;>
    exact ⟨by simp only [getKnob, zvaPhase, setV] <;> (repeat' split) <;> rfl,
           fun hd hv => by
             simp only [getKnob] at hd hv ⊢
             simp only [zvaPhase, setV]
             (repeat' split) <;> simp_all⟩

theorem sp_sveTierPhase : stickyPres sveTierPhase := by
  intro s k
  cases k <;>
    exact ⟨by simp only [getKnob, sveTierPhase, setV] <;> (repeat' split) <;> rfl,
           fun hd hv => by
             simp only [getKnob] at hd hv ⊢
             simp only [sveTierPhase, setV]
             (repeat' split) <;> simp_all⟩

theorem sp_sveLengthPhase : stickyPres sveLengthPhase := by
  intro s k
  cases k <;>
    exact ⟨by simp only [getKnob, sveLengthPhase, setV] <;> (repeat' split) <;> rfl,
           fun hd hv => by
             simp only [getKnob] at hd hv ⊢
             simp only [sveLengthPhase, setV]
             (repeat' split) <;> simp_all⟩

theorem sp_unalignedPopcntPhase : stickyPres unalignedPopcntPhase := by
  intro s k
  cases k <;>
    exact ⟨by simp only [getKnob, unalignedPopcntPhase, setV] <;> (repeat' split) <;> rfl,
           fun hd hv => by
             simp only [getKnob] at hd hv ⊢
             simp only [unalignedPopcntPhase, setV]
             (repeat' split) <;> simp_all⟩

theorem sp_compiler2APhase : stickyPres compiler2APhase := by
  intro s k
  cases k <;>
    exact ⟨by simp only [getKnob, compiler2APhase, setV] <;> (repeat' split) <;> rfl,
           fun hd hv => by
             simp only [getKnob] at hd hv ⊢
             simp only [compiler2APhase, setV]
             (repeat' split) <;> simp_all⟩

theorem sp_optoAlignPhase : stickyPres optoAlignPhase := by
  intro s k
  cases k <;>
    exact ⟨by simp only [getKnob, optoAlignPhase, setV] <;> (repeat' split) <;> rfl,
           fun hd hv => by
             simp only [getKnob] at hd hv ⊢
             simp only [optoAlignPhase, setV]
             (repeat' split) <;> simp_all⟩


/-- Sticky preservation composes. -/
theorem stickyPres_comp (f g : St → St) (hf : stickyPres f) (hg : stickyPres g) :
    stickyPres (fun s => g (f s)) := by
  intro s k
  obtain ⟨d1, v1⟩ := hf s k
  obtain ⟨d2, v2⟩ := hg (f s) k
  exact ⟨d2.trans d1, fun hd hv => v2 (d1.trans hd) (v1 hd hv)⟩

/-- The infallible prefix `pureA` is sticky-preserving. -/
theorem sp_pureA : stickyPres pureA := by
  have h := stickyPres_comp _ _ (stickyPres_comp _ _ (stickyPres_comp _ _
    sp_prefetchPhase sp_dcpopPhase) sp_emagQuirk) sp_ampereQuirk
  intro s k
  have hk := h s k
  exact hk

/-- The infallible middle `pureB` is sticky-preserving. -/
theorem sp_pureB : stickyPres pureB := by
  have h := stickyPres_comp _ _ (stickyPres_comp _ _ (stickyPres_comp _ _ (stickyPres_comp _ _
    (stickyPres_comp _ _ (stickyPres_comp _ _ (stickyPres_comp _ _ (stickyPres_comp _ _
    (stickyPres_comp _ _ (stickyPres_comp _ _ (stickyPres_comp _ _ (stickyPres_comp _ _
    (stickyPres_comp _ _ (stickyPres_comp _ _ (stickyPres_comp _ _ (stickyPres_comp _ _
    (stickyPres_comp _ _ sp_thunderX2Quirk sp_hisiliconQuirk) sp_a53Quirk) sp_a73Quirk)
    sp_neoverseQuirk) sp_armSignumQuirk) sp_stxrQuirk) sp_crcPhase) sp_lsePhase) sp_aesPhase)
    sp_miscIntrinsicsPhase) sp_shaPhase) sp_shaResetPhase) sp_ghashBase64Phase) sp_zvaPhase)
    sp_sveTierPhase) sp_sveLengthPhase) sp_unalignedPopcntPhase
  have h2 := stickyPres_comp _ _ h sp_compiler2APhase
  intro s k
  have hk := h2 s k
  exact hk

/-- The virtualization probe does not touch any sticky knob. -/
theorem virt_getKnob (s : St) (k : StickyKnob) : getKnob (virtPhase s) k = getKnob s k := by
  cases k <;> rfl

/-- C1 (amended): for every sticky boolean knob other than the two the code
forces on (`UsePopCountInstruction`, lines 437-440, and `UseAES`, lines
284-287), an operator-explicit false survives every rule of a non-aborting
initialization, regardless of the hardware feature bits. -/
theorem c1_explicit_false_sticky (inp st : St) (k : StickyKnob) (h : vmInit inp = .ok st)
    (hd : (getKnob inp k).isDefault = false) (hv : (getKnob inp k).value = false) :
    (getKnob st k).value = false := by
  obtain ⟨s1, s2, s3, s4, h1, h2, h3, h4, hst⟩ := vmInit_ok_decomp inp st h
  obtain ⟨dA, vA⟩ := sp_pureA inp k
  have hdA : (getKnob (pureA inp) k).isDefault = false := dA.trans hd
  have hvA : (getKnob (pureA inp) k).value = false := vA hd hv
  obtain ⟨-, -, -, -, -, -, -, -, -, -, -, -, -, hk1⟩ := thunderX_ok_frame _ _ h1
  have heq1 : getKnob s1 k = getKnob (pureA inp) k := (hk1 k).2 hdA
  have hd1 : (getKnob s1 k).isDefault = false := by rw [heq1]; exact hdA
  have hv1 : (getKnob s1 k).value = false := by rw [heq1]; exact hvA
  obtain ⟨dB, vB⟩ := sp_pureB s1 k
  have hdB : (getKnob (pureB s1) k).isDefault = false := dB.trans hd1
  have hvB : (getKnob (pureB s1) k).value = false := vB hd1 hv1
  obtain ⟨-, -, -, -, hk2, -⟩ := sveMaxVector_ok_frame _ _ h2
  have hd2 : (getKnob s2 k).isDefault = false := by rw [hk2 k]; exact hdB
  have hv2 : (getKnob s2 k).value = false := by rw [hk2 k]; exact hvB
  obtain ⟨-, -, -, -, -, -, hk3, -⟩ := neon_ok_frame _ _ h3
  have hd3 : (getKnob s3 k).isDefault = false := by rw [hk3 k]; exact hd2
  have hv3 : (getKnob s3 k).value = false := by rw [hk3 k]; exact hv2
  obtain ⟨dO, vO⟩ := sp_optoAlignPhase s3 k
  have hvO : (getKnob (optoAlignPhase s3) k).value = false := vO hd3 hv3
  obtain ⟨-, -, -, -, hk4, -⟩ := spinWait_ok_frame _ _ h4
  have hv4 : (getKnob s4 k).value = false := by rw [hk4 k]; exact hvO
  subst hst
  rw [virt_getKnob]
  exact hv4

/-- C1 counterexample: the operator's `-XX:-UsePopCountInstruction` (an
explicit false) is overridden back to true with a warning (lines 437-440),
so the spec's universal sticky property fails as stated. -/
theorem c1_popcount_counterexample :
    c1CounterIn.UsePopCountInstruction.isDefault = false ∧
    c1CounterIn.UsePopCountInstruction.value = false ∧
    (vmInit c1CounterIn).toOption.map (fun s =>
      (s.UsePopCountInstruction.value,
       s.warnings.contains "UsePopCountInstruction is always enabled on this CPU"))
      = some (true, true) := by
  refine ⟨rfl, rfl, ?_⟩
  decide

/-- C1 witness: the operator's `-XX:-UseLSE` is still false after the run. -/
theorem c1_sticky_witness :
    (getKnob ((vmInit c1WitnessIn).toOption.getD c1WitnessIn) StickyKnob.UseLSE).value = false :=
  c1_explicit_false_sticky c1WitnessIn ((vmInit c1WitnessIn).toOption.getD c1WitnessIn)
    StickyKnob.UseLSE rfl rfl rfl
